import Mathlib

/-!
# w3d `libcss-handler.c`: the selection callbacks handed to libcss

A shallow embedding of `compute_font_size`, of the linked list behind
`set_libcss_node_data` / `get_libcss_node_data`, of the generic adapter
functions `get_string`, `match_bool` and `match_string`, and of the callbacks
`node_classes`, the tree-navigation callbacks, `node_presentational_hint`
and `ua_default_for_property`, followed by the properties proved about them.

Conventions of the embedding

* `css_fixed` (an `int32_t` holding a 22:10 fixed-point number) is an `Int`;
  the libcss operations clamp their 64-bit intermediate result to the
  `int32_t` range, which is written out in `css_saturate`.
* A failed `assert`, an out-of-range table read or array write and a
  dereferenced `NULL` are faults: the function returns `none`.
* `void *pw` is unused by every function embedded here and is left out.
* The host document provider (the `js_` functions) is a parameter.
* The source is embedded as it is written. Where a line uses a value it was
  never given (the local `match` of the store search, the second argument of
  `append_node_data`, the global `NULL_STR`), the embedding does not supply
  one: the value is a parameter or the `NULL` of static initialisation. A
  comparison of a character with a string literal is the comparison with the
  address of the literal that C makes of it.
-/

namespace LibcssHandler

/-! ## libcss types used by the handler -/

/-- Return codes of libcss (`css_error`, libcss/errors.h). -/
inductive css_error
  | CSS_OK
  | CSS_NOMEM
  | CSS_BADPARM
  | CSS_INVALID
  | CSS_FILENOTFOUND
  | CSS_NEEDDATA
  | CSS_BADCHARSET
  | CSS_EOF
  | CSS_IMPORTS_PENDING
  | CSS_PROPERTY_NOT_SET
  deriving DecidableEq, Repr

/-- Units of a length (`css_unit`, libcss/types.h). Only equality of units is
used by the handler, so the numeric codes are not needed. -/
inductive css_unit
  | CSS_UNIT_PX
  | CSS_UNIT_EX
  | CSS_UNIT_EM
  | CSS_UNIT_IN
  | CSS_UNIT_CM
  | CSS_UNIT_MM
  | CSS_UNIT_PT
  | CSS_UNIT_PC
  | CSS_UNIT_PCT
  | CSS_UNIT_DEG
  | CSS_UNIT_GRAD
  | CSS_UNIT_RAD
  | CSS_UNIT_MS
  | CSS_UNIT_S
  | CSS_UNIT_HZ
  | CSS_UNIT_KHZ
  deriving DecidableEq, Repr

open css_error css_unit

/-- The type `css_fixed`: the raw `int32_t` of a 22:10 fixed-point number. -/
abbrev css_fixed := Int

/-- Member `length` of a hint: `struct { css_fixed value; css_unit unit; }`. -/
structure css_hint_length where
  value : css_fixed
  unit : css_unit
  deriving DecidableEq, Repr

/-- The members of the union `css_hint.data` that the handler touches, kept
side by side (no function here reads one member after writing another). -/
structure css_hint_data where
  color : Nat
  strings : Option (List String)
  length : css_hint_length
  deriving DecidableEq, Repr

/-- A hint, `css_hint`: the data union and the `uint8_t status`. -/
structure css_hint where
  data : css_hint_data
  status : Nat
  deriving DecidableEq, Repr

/-! Values of `enum css_font_size_e` (libcss/properties.h). -/

def CSS_FONT_SIZE_INHERIT : Nat := 0
def CSS_FONT_SIZE_XX_SMALL : Nat := 1
def CSS_FONT_SIZE_X_SMALL : Nat := 2
def CSS_FONT_SIZE_SMALL : Nat := 3
def CSS_FONT_SIZE_MEDIUM : Nat := 4
def CSS_FONT_SIZE_LARGE : Nat := 5
def CSS_FONT_SIZE_X_LARGE : Nat := 6
def CSS_FONT_SIZE_XX_LARGE : Nat := 7
def CSS_FONT_SIZE_LARGER : Nat := 8
def CSS_FONT_SIZE_SMALLER : Nat := 9
def CSS_FONT_SIZE_DIMENSION : Nat := 10

/-! ## libcss fixed-point arithmetic (libcss/fpmath.h) -/

def CSS_RADIX_POINT : Nat := 10

def INT_MIN : Int := -2147483648

def INT_MAX : Int := 2147483647

/-- The clamp every fpmath.h operation applies to its `int64_t` result:
`if (xx < INT_MIN) xx = INT_MIN; if (xx > INT_MAX) xx = INT_MAX;`. -/
def css_saturate (xx : Int) : css_fixed :=
  if xx < INT_MIN then INT_MIN else if xx > INT_MAX then INT_MAX else xx

/-- `FMUL(a, b)`, i.e. `css_multiply_fixed`:
`((int64_t)x * (int64_t)y) >> CSS_RADIX_POINT`, clamped. The shift is
arithmetic: it rounds toward minus infinity. -/
def FMUL (a b : css_fixed) : css_fixed :=
  css_saturate ((a * b) >>> CSS_RADIX_POINT)

/-- `FDIV(a, b)`, i.e. `css_divide_fixed`:
`((int64_t)x << CSS_RADIX_POINT) / y`, clamped. The left shift of the
widened operand is a multiplication by `2 ^ CSS_RADIX_POINT`; C division
truncates toward zero. Every divisor in the handler is a non-zero constant. -/
def FDIV (a b : css_fixed) : css_fixed :=
  css_saturate (Int.tdiv (a * 2 ^ CSS_RADIX_POINT) b)

/-- `INTTOFIX(a)`, i.e. `css_int_to_fixed`: `((int64_t) a) << CSS_RADIX_POINT`,
clamped. -/
def INTTOFIX (a : Int) : css_fixed :=
  css_saturate (a * 2 ^ CSS_RADIX_POINT)

/-- `FLTTOFIX(a)` for a non-negative decimal literal `a = num / den`:
`(css_fixed) ((a) * (float) (1 << CSS_RADIX_POINT))`, the cast truncating.
The literal is read as the exact decimal; for each literal of the handler the
product computed in floating point has the same integer part. -/
def FLTTOFIX (num den : Nat) : css_fixed :=
  Int.ofNat ((num * 2 ^ CSS_RADIX_POINT) / den)

/-- The constant `F_10` of fpmath.h, `0x00002800`. -/
def F_10 : css_fixed := 0x00002800

/-! ## `compute_font_size` -/

/-- The static table `factors[]` of font-size keyword scale factors. -/
def factors : List css_fixed :=
  [ FLTTOFIX 5625 10000,   -- xx-small
    FLTTOFIX 6250 10000,   -- x-small
    FLTTOFIX 8125 10000,   -- small
    FLTTOFIX 10000 10000,  -- medium
    FLTTOFIX 11250 10000,  -- large
    FLTTOFIX 15000 10000,  -- x-large
    FLTTOFIX 20000 10000 ] -- xx-large

/-- A C array read `table[i]` with an `int` index: a fault outside the
array. -/
def array_read (table : List css_fixed) (i : Int) : Option css_fixed :=
  if i < 0 then none else table[i.toNat]?

/-- The C `assert`: a fault when the condition is false. -/
def c_assert (c : Bool) : Option Unit :=
  if c then some () else none

/-- The first statement of `compute_font_size`, "grab parent size,
defaulting to medium if none", with its four assertions. -/
def grab_parent_size (UA_FONT_SIZE : Int) (parent : Option css_hint) :
    Option css_hint_length :=
  match parent with
  | none => do
      let medium ← array_read factors ((CSS_FONT_SIZE_MEDIUM : Int) - 1)
      pure { value := FDIV (FMUL medium (INTTOFIX UA_FONT_SIZE)) (INTTOFIX 10),
             unit := CSS_UNIT_PT }
  | some p => do
      c_assert (p.status == CSS_FONT_SIZE_DIMENSION)
      c_assert (p.data.length.unit != CSS_UNIT_EM)
      c_assert (p.data.length.unit != CSS_UNIT_EX)
      c_assert (p.data.length.unit != CSS_UNIT_PCT)
      pure p.data.length

/-- The `if` chain of `compute_font_size` that rewrites `size->data.length`;
the last case, a length in any other unit, has no branch in the source and
leaves the length as it is. -/
def resolve_length (UA_FONT_SIZE : Int) (parent_size : css_hint_length)
    (size : css_hint) : Option css_hint_length :=
  if size.status < CSS_FONT_SIZE_LARGER then do
    -- Keyword -- simple
    let factor ← array_read factors ((size.status : Int) - 1)
    pure { value := FDIV (FMUL factor (INTTOFIX UA_FONT_SIZE)) F_10,
           unit := CSS_UNIT_PT }
  else if size.status = CSS_FONT_SIZE_LARGER then
    some { value := FMUL parent_size.value (FLTTOFIX 12 10),
           unit := parent_size.unit }
  else if size.status = CSS_FONT_SIZE_SMALLER then
    some { value := FDIV parent_size.value (FLTTOFIX 12 10),
           unit := parent_size.unit }
  else if size.data.length.unit = CSS_UNIT_EM ∨
      size.data.length.unit = CSS_UNIT_EX then
    let value := FMUL size.data.length.value parent_size.value
    -- 1ex = 0.6em in NetSurf
    let value := if size.data.length.unit = CSS_UNIT_EX
      then FMUL value (FLTTOFIX 6 10) else value
    some { value := value, unit := parent_size.unit }
  else if size.data.length.unit = CSS_UNIT_PCT then
    some { value := FDIV (FMUL size.data.length.value parent_size.value)
                      (INTTOFIX 100),
           unit := parent_size.unit }
  else
    some size.data.length

/-- The font size computation callback. `UA_FONT_SIZE` is the constant the
source initialises from the host (`js_ua_font_size()`). The result is the
returned `css_error` and the hint `*size` as the function leaves it; `none`
is a fault (a failed assertion or a table read out of range). -/
def compute_font_size (UA_FONT_SIZE : Int) (parent : Option css_hint)
    (size : css_hint) : Option (css_error × css_hint) := do
  let parent_size ← grab_parent_size UA_FONT_SIZE parent
  c_assert (size.status != CSS_FONT_SIZE_INHERIT)
  let length ← resolve_length UA_FONT_SIZE parent_size size
  pure (CSS_OK, { data := { size.data with length := length },
                  status := CSS_FONT_SIZE_DIMENSION })

/-! ## The node-data store

`first_node` is the head of a singly linked list; it carries no entry itself
(the search steps to `next` before it tests). The store is embedded as the
chain of nodes behind `first_node.next`, a pointer to one of them as its
position in the chain, and `NULL` as `none`. `malloc` is taken to succeed. -/

/-- An interned string `lwc_string *`. Interning makes pointer identity
coincide with equality of content, so the handle is embedded as its
content. -/
abbrev lwc_string := String

/-- A `void *` to data owned by libcss: `none` is `NULL`, `some a` the
address `a`. -/
abbrev void_ptr := Option Nat

/-- The members `id` and `data` of `struct node_data`; the member `next` is
the tail of the list. -/
structure node_data where
  id : lwc_string
  data : void_ptr
  deriving DecidableEq, Repr

/-- The values the store code uses without having been given them.

* `match_value k` is what the local `bool match` holds in pass `k` of the
  loop of `get_node_data_by_id`. It is declared without a value, and the line
  meant to set it, `lwc_string_isequal(*id, current_node->id, &bool)`, names
  the type `bool` and not the variable: `match` is never assigned.
* `missing_argument` is what `append_node_data` finds in its second
  parameter when `update_node_data` calls it with one argument.
* `as_lwc_string p` is the data pointer `p` taken as an `lwc_string *`, which
  is what that one argument becomes in the first parameter, `id`. -/
structure unspecified where
  match_value : Nat → Bool
  missing_argument : void_ptr
  as_lwc_string : void_ptr → lwc_string

/-- The loop of `get_node_data_by_id`: it returns the first node behind
`first_node` for which `match` is true, `NULL` when the chain ends. Since
`match` is never assigned, neither `id` nor `current_node->id` has a part in
the result; the first argument gives the value of `match` pass by pass. -/
def get_node_data_by_id : (Nat → Bool) → List node_data → lwc_string → Option Nat
  | _, [], _ => none
  | match_value, _current_node :: next, id =>
      if match_value 0 then some 0
      else (get_node_data_by_id (fun pass => match_value (pass + 1)) next id).map (· + 1)

/-- Allocate a node for `(id, new_data)` and hang it behind the last node of
the chain (`get_last_node_data`). -/
def append_node_data (chain : List node_data) (id : lwc_string) (new_data : void_ptr) :
    List node_data :=
  chain ++ [{ id := id, data := new_data }]

/-- The assignment `node->data = new_data` through a pointer to the node at
position `node` of the chain. -/
def store_data : List node_data → Nat → void_ptr → List node_data
  | [], _, _ => []
  | current_node :: next, 0, new_data => { current_node with data := new_data } :: next
  | current_node :: next, node + 1, new_data => current_node :: store_data next node new_data

/-- Replace the data of the node the search returns, or append a node when
it returns `NULL`. The source calls `append_node_data(new_data)`, with one
argument for the two parameters `(id, new_data)`: the data pointer stands in
the place of `id` and nothing is passed for `new_data`. -/
def update_node_data (u : unspecified) (chain : List node_data) (id : lwc_string)
    (new_data : void_ptr) : List node_data :=
  match get_node_data_by_id u.match_value chain id with
  | none => append_node_data chain (u.as_lwc_string new_data) u.missing_argument
  | some node => store_data chain node new_data

/-- The callback storing libcss data for a node: the returned code and the
chain it leaves. -/
def set_libcss_node_data (u : unspecified) (chain : List node_data) (node : lwc_string)
    (libcss_node_data : void_ptr) : css_error × List node_data :=
  (CSS_OK, update_node_data u chain node libcss_node_data)

/-- The callback fetching libcss data for a node: the returned code and the
pointer written to `*libcss_node_data`. The source reads `nd->data` without
testing `nd`; when the search returned `NULL` that read is a fault, `none`. -/
def get_libcss_node_data (u : unspecified) (chain : List node_data) (node : lwc_string) :
    Option (css_error × void_ptr) :=
  match get_node_data_by_id u.match_value chain node with
  | none => none
  | some nd => chain[nd]?.map fun current_node => (CSS_OK, current_node.data)

/-! ## The query dispatch adapter

The host document provider is a set of functions over C strings. A
`const char *` is embedded as a `String`; the C string it denotes is the run of
characters before the first NUL. -/

/-- The NUL character that ends a C string. -/
def NUL : Char := Char.ofNat 0

/-- The C library `strlen`: the number of characters before the first NUL. -/
def strlen (s : String) : Nat := (s.data.takeWhile (· != NUL)).length

/-- The read `*s` of the first character of a C string; an empty `String`
holds only the terminator. -/
def c_deref (s : String) : Char := s.data.headD NUL

/-- The comparison `c == "..."` of a character with a string literal, which
the source writes in `get_string`, in `match_string` and in the first loop of
`node_classes`. It compiles: the literal stands for the address of its first
character, and no character is equal to that address. -/
def char_eq_literal (_c : Char) (_literal : String) : Bool := false

/-- The libwapcaplet `lwc_string_data`: the characters of an interned
string. -/
def lwc_string_data (str : lwc_string) : String := str

/-- The libwapcaplet `lwc_intern_string(s, slen, &ret)`, with the
`lwc_string_ref` that follows it in the source: the interned string made of
the first `slen` characters of `s`. Interning is taken to succeed. -/
def lwc_intern_string (s : String) (slen : Nat) : lwc_string := ⟨s.data.take slen⟩

/-- The global `lwc_string* NULL_STR`. The line after its declaration,
`lwc_intern_string("", 0, &NULL_STR);`, stands at file scope, where no
statement is executed: the pointer keeps the `NULL` of its static
initialisation. -/
def NULL_STR : Option lwc_string := none

/-- The generic get function, "must return string": the returned code and
the pointer written to `*ret` (`none` is `NULL`). The test is written
`*js_results == "\0"`. -/
def get_string (node : lwc_string) (js_fun : String → String) :
    css_error × Option lwc_string :=
  let node_string := lwc_string_data node
  let js_results := js_fun node_string
  if char_eq_literal (c_deref js_results) "\\0" then
    (CSS_OK, none)
  else
    (CSS_OK, some (lwc_intern_string js_results (strlen js_results)))

/-- The generic search function, "must return boolean". An absent parameter
is replaced by `lwc_string_data(NULL_STR)`, which reads through `NULL_STR`: a
fault while that pointer is `NULL`. The host function is declared to return a
`const char *`; `js_fun` gives that word as a number and the assignment to
the `bool` `*ret` keeps whether it is non-zero. -/
def match_bool (node : lwc_string) (search_parameter match_parameter : Option lwc_string)
    (js_fun : String → String → String → Nat) : Option (css_error × Bool) := do
  let node_string := lwc_string_data node
  let search_string ←
    match search_parameter with
    | none => NULL_STR.map lwc_string_data
    | some s => some (lwc_string_data s)
  let match_string ←
    match match_parameter with
    | none => NULL_STR.map lwc_string_data
    | some m => some (lwc_string_data m)
  pure (CSS_OK, js_fun node_string search_string match_string != 0)

/-- The generic search function, "must return string". The search parameter
is read through without a test: a `NULL` there is a fault. The test on the
result is written `*js_results == "\0"`, as in `get_string`. -/
def match_string (node : lwc_string) (search_parameter : Option lwc_string)
    (js_fun : String → String → String) : Option (css_error × Option lwc_string) := do
  let node_string := lwc_string_data node
  let s ← search_parameter
  let match_string := lwc_string_data s
  let js_results := js_fun node_string match_string
  if char_eq_literal (c_deref js_results) "\\0" then
    pure (CSS_OK, none)
  else
    pure (CSS_OK, some (lwc_intern_string js_results (strlen js_results)))

/-! ## Style selection callbacks -/

/-- A qualified name `css_qname`: namespace and local name. -/
structure css_qname where
  ns : Option lwc_string
  name : Option lwc_string
  deriving DecidableEq, Repr

/-- The host queries the callbacks below hand to the adapter. They are
defined outside this file. -/
structure js_host where
  js_node_classes : String → String
  js_named_ancestor_node : String → String → String
  js_named_parent_node : String → String → String
  js_named_sibling_node : String → String → String
  js_named_generic_sibling_node : String → String → String
  js_parent_node : String → String
  js_sibling_node : String → String

/-- Callback to find a named ancestor node: the returned code and the
content of `*ancestor`. -/
def named_ancestor_node (host : js_host) (node : lwc_string) (qname : css_qname) :
    Option (css_error × Option lwc_string) :=
  match_string node qname.name host.js_named_ancestor_node

/-- Callback to find a named parent node: the returned code and the content
of `*parent`. The source hands `ancestor` to `match_string` as the place to
receive the result; this function has no parameter of that name, so
`*parent` is not written and keeps the content `parent` the caller left in
it. -/
def named_parent_node (host : js_host) (node : lwc_string) (qname : css_qname)
    (parent : Option lwc_string) : Option (css_error × Option lwc_string) :=
  (match_string node qname.name host.js_named_parent_node).map fun ancestor =>
    (ancestor.1, parent)

/-- Callback to find a named sibling node: the returned code and the content
of `*sibling`. -/
def named_sibling_node (host : js_host) (node : lwc_string) (qname : css_qname) :
    Option (css_error × Option lwc_string) :=
  match_string node qname.name host.js_named_sibling_node

/-- Callback to find a named generic sibling node: the returned code and the
content of `*sibling`. -/
def named_generic_sibling_node (host : js_host) (node : lwc_string) (qname : css_qname) :
    Option (css_error × Option lwc_string) :=
  match_string node qname.name host.js_named_generic_sibling_node

/-- Callback to retrieve the parent of a node: the returned code and the
content of `*parent`. -/
def parent_node (host : js_host) (node : lwc_string) : css_error × Option lwc_string :=
  get_string node host.js_parent_node

/-- Callback to retrieve the preceding sibling of a node: the returned code
and the content of `*sibling`. -/
def sibling_node (host : js_host) (node : lwc_string) : css_error × Option lwc_string :=
  get_string node host.js_sibling_node

/-- The callback for presentational hints: the returned code, `*nhints` and
`*hints` (`none` is `NULL`). -/
def node_presentational_hint (_node : lwc_string) :
    css_error × Nat × Option (List css_hint) :=
  (CSS_OK, 0, none)

/-- The members of `enum css_properties_e` that `ua_default_for_property`
names, and every other property code. -/
inductive css_properties_e
  | CSS_PROP_COLOR
  | CSS_PROP_FONT_FAMILY
  | CSS_PROP_QUOTES
  | CSS_PROP_VOICE_FAMILY
  | other (code : Nat)
  deriving DecidableEq, Repr

open css_properties_e

/-! Status values of libcss/properties.h used for the defaults. -/

def CSS_COLOR_COLOR : Nat := 1
def CSS_FONT_FAMILY_SANS_SERIF : Nat := 2
def CSS_QUOTES_NONE : Nat := 1

/-- Callback to retrieve the User-Agent defaults for a CSS property: the
returned code and the hint as the function leaves it. -/
def ua_default_for_property (property : css_properties_e) (hint : css_hint) :
    css_error × css_hint :=
  match property with
  | CSS_PROP_COLOR =>
      (CSS_OK, { data := { hint.data with color := 0xff000000 }, status := CSS_COLOR_COLOR })
  | CSS_PROP_FONT_FAMILY =>
      (CSS_OK, { data := { hint.data with strings := none },
                 status := CSS_FONT_FAMILY_SANS_SERIF })
  | CSS_PROP_QUOTES =>
      (CSS_OK, { data := { hint.data with strings := none }, status := CSS_QUOTES_NONE })
  | CSS_PROP_VOICE_FAMILY =>
      (CSS_OK, { data := { hint.data with strings := none }, status := 0 })
  | other _ => (CSS_INVALID, hint)

/-! ## `node_classes`

Memory is embedded as lists: a C string as its characters (the terminator
sits at index `length`), the buffer `current_class` and the array `ptr_array`
as lists of their cells. A cell of `ptr_array` that was never written is
`none`. What the uninitialised buffer holds on entry is the parameter
`stack`. A read or write outside an object is a fault. The counters are
natural numbers: no string that fits in memory takes them out of the range
of their C types. The `case` labels of the `switch`, written between double
quotes, are the characters they spell, and so is the terminator assigned to
the buffer; the test `== ","` of the first loop is the comparison with a
string literal it is written as. The tests against `NULL` compare a
character with zero. -/

/-- The read `*(s + i)` inside a C string: its characters, then the
terminating NUL; a fault further out. -/
def c_char_at (s : List Char) (i : Nat) : Option Char :=
  if h : i < s.length then some s[i] else if i = s.length then some NUL else none

/-- The write `array[i] = x` into a C array; a fault outside the array. -/
def array_write {α : Type} (array : List α) (i : Nat) (x : α) : Option (List α) :=
  if i < array.length then some (array.set i x) else none

/-- The first loop of `node_classes`,
`while (*current_c != NULL) { if (*(++current_c) == ",") ++n; }`,
from the position `current_c` with the count `n`; the first argument bounds
the number of iterations. -/
def count_classes (js_results : List Char) : Nat → Nat → Nat → Option Nat
  | 0, _, _ => none
  | fuel + 1, current_c, n => do
      let c ← c_char_at js_results current_c
      if c = NUL then
        pure n
      else
        let current_c := current_c + 1
        let c ← c_char_at js_results current_c
        count_classes js_results fuel current_c
          (if char_eq_literal c "," then n + 1 else n)

/-- The variables of the second loop of `node_classes`. -/
structure class_scan where
  current_c : Nat
  offset : Nat
  classes_processed : Nat
  current_class : List Char
  ptr_array : List (Option lwc_string)
  deriving DecidableEq, Repr

/-- The second loop of `node_classes`, the `switch` on
`*(current_c + offset)`; the first numeric argument bounds the number of
iterations. In the default case the source writes
`current_class[offset] = *(current_c + offset++)`, read as the copy of the
character to index `offset` followed by the increment; C leaves the order of
the two uses of `offset` open, and a compiler that increments first puts the
character one cell further, which changes the bytes of a token and nothing
else. The buffer is declared `const char` and assigned to; the qualifier is
ignored. -/
def scan_classes (sizeof_ptr : Nat) (js_results : List Char) :
    Nat → class_scan → Option class_scan
  | 0, _ => none
  | fuel + 1, st => do
      let c ← c_char_at js_results (st.current_c + st.offset)
      if c = NUL then
        pure st
      else if c = Char.ofNat 34 ∨ c = '[' then
        scan_classes sizeof_ptr js_results fuel { st with current_c := st.current_c + 1 }
      else if c = ',' ∨ c = ']' then
        let offset := st.offset + 1
        let current_c := st.current_c + offset
        let current_class ← array_write st.current_class offset NUL
        let class_name :=
          lwc_intern_string ⟨current_class⟩ (strlen ⟨current_class⟩)
        let ptr_array ←
          array_write st.ptr_array (st.classes_processed * sizeof_ptr) (some class_name)
        scan_classes sizeof_ptr js_results fuel
          { current_c := current_c, offset := 0,
            classes_processed := st.classes_processed + 1,
            current_class := current_class, ptr_array := ptr_array }
      else
        let current_class ← array_write st.current_class st.offset c
        scan_classes sizeof_ptr js_results fuel
          { st with offset := st.offset + 1, current_class := current_class }

/-- Callback to retrieve a node's classes: the returned code, `*classes`
(`none` is `NULL`, otherwise the cells of the allocated array) and
`*n_classes`. `sizeof_ptr` is `sizeof(lwc_string*)`. The counter the source
declares as `uint32_t n` under the name already taken by the node is a
variable of its own. `malloc` is taken to succeed. -/
def node_classes (sizeof_ptr : Nat) (stack : Nat → Char) (host : js_host)
    (node : lwc_string) : Option (css_error × Option (List (Option lwc_string)) × Nat) :=
  let node_string := lwc_string_data node
  -- This js function returns a stringified array of class strings
  let js_results := host.js_node_classes node_string
  -- Bail out
  if c_deref js_results = NUL then
    some (CSS_OK, none, 0)
  else do
    let n ← count_classes js_results.data (js_results.data.length + 1) 0 1
    let ptr_array : List (Option lwc_string) := List.replicate n none
    let current_class_s := strlen js_results + 1
    let current_class := (List.range current_class_s).map stack
    let st ← scan_classes sizeof_ptr js_results.data (js_results.data.length + 1)
      { current_c := 0, offset := 0, classes_processed := 0,
        current_class := current_class, ptr_array := ptr_array }
    pure (CSS_OK, some st.ptr_array, n)

/-- What one pass through the `while` of the second loop of `node_classes`
comes to: the condition is false (`stop`), the body ran and left new values
in the variables (`next`), or the pass faulted. -/
inductive scan_outcome
  | stop
  | next (st : class_scan)
  | fault
  deriving DecidableEq, Repr

/-- One pass through the second loop of `node_classes`: the test of
`*(current_c + offset)` and the `switch`, as in `scan_classes`. -/
def scan_step (sizeof_ptr : Nat) (js_results : List Char) (st : class_scan) : scan_outcome :=
  match c_char_at js_results (st.current_c + st.offset) with
  | none => scan_outcome.fault
  | some c =>
    if c = NUL then
      scan_outcome.stop
    else if c = Char.ofNat 34 ∨ c = '[' then
      scan_outcome.next { st with current_c := st.current_c + 1 }
    else if c = ',' ∨ c = ']' then
      let offset := st.offset + 1
      let current_c := st.current_c + offset
      match array_write st.current_class offset NUL with
      | none => scan_outcome.fault
      | some current_class =>
        let class_name :=
          lwc_intern_string ⟨current_class⟩ (strlen ⟨current_class⟩)
        match array_write st.ptr_array (st.classes_processed * sizeof_ptr)
            (some class_name) with
        | none => scan_outcome.fault
        | some ptr_array =>
          scan_outcome.next
            { current_c := current_c, offset := 0,
              classes_processed := st.classes_processed + 1,
              current_class := current_class, ptr_array := ptr_array }
    else
      match array_write st.current_class st.offset c with
      | none => scan_outcome.fault
      | some current_class =>
        scan_outcome.next { st with offset := st.offset + 1, current_class := current_class }

/-- How the second loop stands after a number of passes: it has ended with
the variables as given, it has faulted, or it is still running. -/
inductive loop_state
  | finished (st : class_scan)
  | faulted
  | running (st : class_scan)
  deriving DecidableEq, Repr

/-- The second loop of `node_classes` followed for at most the given number
of passes. -/
def scan_passes (sizeof_ptr : Nat) (js_results : List Char) : Nat → class_scan → loop_state
  | 0, st => loop_state.running st
  | passes + 1, st =>
    match scan_step sizeof_ptr js_results st with
    | scan_outcome.stop => loop_state.finished st
    | scan_outcome.next st' => scan_passes sizeof_ptr js_results passes st'
    | scan_outcome.fault => loop_state.faulted

/-! ## Vocabulary of the font-size properties -/

/-- A unit is absolute when it is none of em, ex and percent. -/
def absolute_unit (u : css_unit) : Prop :=
  u ≠ CSS_UNIT_EM ∧ u ≠ CSS_UNIT_EX ∧ u ≠ CSS_UNIT_PCT

instance : DecidablePred absolute_unit := fun u => by
  unfold absolute_unit; infer_instance

/-- A hint that is a dimension in an absolute unit. -/
def absolute_dimension (p : css_hint) : Prop :=
  p.status = CSS_FONT_SIZE_DIMENSION ∧ absolute_unit p.data.length.unit

instance : DecidablePred absolute_dimension := fun p => by
  unfold absolute_dimension; infer_instance

/-- The parents `compute_font_size` is specified for: no parent, or an
absolute dimension. -/
def admissible_parent : Option css_hint → Prop
  | none => True
  | some p => absolute_dimension p

instance : DecidablePred admissible_parent := fun parent => by
  cases parent <;> unfold admissible_parent <;> infer_instance

/-- The number a raw `css_fixed` stands for: the raw integer over
`2 ^ CSS_RADIX_POINT`. -/
def fixed_value (x : css_fixed) : ℚ := (x : ℚ) / 2 ^ CSS_RADIX_POINT

/-- The scale factors of the seven size keywords as the specification lists
them, xx-small first. -/
def scale_table : List ℚ := [0.5625, 0.6250, 0.8125, 1.0000, 1.1250, 1.5000, 2.0000]

/-- The hint `size` with its length replaced and its status set to
"dimension": the shape in which `compute_font_size` leaves `*size`. -/
def as_dimension (size : css_hint) (length : css_hint_length) : css_hint :=
  { data := { size.data with length := length }, status := CSS_FONT_SIZE_DIMENSION }

/-! ## Vocabulary of the store and adapter properties -/

/-- The store a sequence of `set_libcss_node_data` calls builds from the
initial empty list. -/
def run_sets (u : unspecified) (calls : List (lwc_string × void_ptr)) : List node_data :=
  calls.foldl (fun chain call => (set_libcss_node_data u chain call.1 call.2).2) []

/-- The C string a `const char *` denotes: the characters before the first
NUL. -/
def c_string (s : String) : String := ⟨s.data.takeWhile (· != NUL)⟩

/-- The word a host function returns for a C boolean. -/
def bool_word (b : Bool) : Nat := if b then 1 else 0

/-! ## Sample inputs -/

/-- A hint holding the given length as a dimension. -/
def dimension_hint (value : css_fixed) (unit : css_unit) : css_hint :=
  { data := { color := 0, strings := none, length := { value := value, unit := unit } },
    status := CSS_FONT_SIZE_DIMENSION }

/-- A hint holding only a font-size keyword; its length member is the zeroed
union. -/
def keyword_hint (status : Nat) : css_hint :=
  { data := { color := 0, strings := none, length := { value := 0, unit := CSS_UNIT_PX } },
    status := status }

/-- A host whose every query answers with the same text. -/
def constant_host (answer : String) : js_host :=
  { js_node_classes := fun _ => answer,
    js_named_ancestor_node := fun _ _ => answer,
    js_named_parent_node := fun _ _ => answer,
    js_named_sibling_node := fun _ _ => answer,
    js_named_generic_sibling_node := fun _ _ => answer,
    js_parent_node := fun _ => answer,
    js_sibling_node := fun _ => answer }

/-- A sample of how a data pointer reads when it is taken as an
`lwc_string *`: as many stars as its address, plus one. -/
def pointer_as_text : void_ptr → lwc_string
  | none => ""
  | some address => ⟨List.replicate (address + 1) '*'⟩

/-- The unspecified values when `match` reads as false in every pass and the
missing argument as `NULL`. -/
def match_clear : unspecified :=
  { match_value := fun _ => false, missing_argument := none,
    as_lwc_string := pointer_as_text }

/-- The unspecified values when `match` reads as true in every pass and the
missing argument as `NULL`. -/
def match_set : unspecified :=
  { match_value := fun _ => true, missing_argument := none,
    as_lwc_string := pointer_as_text }

/-- A stack whose bytes are all zero. -/
def zeroed_stack : Nat → Char := fun _ => NUL

/-- A stack whose bytes all hold the letter x. -/
def dirty_stack : Nat → Char := fun _ => 'x'

/-! ## Lemmas on the parts of `compute_font_size` -/

theorem factors_eq : factors = [576, 640, 832, 1024, 1152, 1536, 2048] := by decide

theorem F_10_eq : F_10 = INTTOFIX 10 := by decide

theorem grab_parent_size_none (ua : Int) :
    grab_parent_size ua none =
      some { value := FDIV (FMUL (FLTTOFIX 10000 10000) (INTTOFIX ua)) (INTTOFIX 10),
             unit := CSS_UNIT_PT } := by
  rfl

theorem grab_parent_size_some (ua : Int) (p : css_hint) (hp : absolute_dimension p) :
    grab_parent_size ua (some p) = some p.data.length := by
  obtain ⟨h1, h2, h3, h4⟩ := hp
  simp [grab_parent_size, c_assert, h1, h2, h3, h4]

theorem grab_parent_size_admissible (ua : Int) (parent : Option css_hint)
    (hp : admissible_parent parent) :
    ∃ ps, grab_parent_size ua parent = some ps ∧ absolute_unit ps.unit := by
  cases parent with
  | none =>
    refine ⟨_, grab_parent_size_none ua, ?_⟩
    show absolute_unit CSS_UNIT_PT
    decide
  | some p => exact ⟨_, grab_parent_size_some ua p hp, hp.2⟩

theorem compute_font_size_eq (ua : Int) (parent : Option css_hint) (size : css_hint)
    (ps len : css_hint_length) (hs : size.status ≠ CSS_FONT_SIZE_INHERIT)
    (hps : grab_parent_size ua parent = some ps)
    (hlen : resolve_length ua ps size = some len) :
    compute_font_size ua parent size = some (CSS_OK, as_dimension size len) := by
  simp [compute_font_size, hps, hlen, c_assert, hs, as_dimension]

theorem resolve_length_keyword (ua : Int) (ps : css_hint_length) (size : css_hint)
    (k : Nat) (hk : k < 7) (hs : size.status = k + 1) :
    ∃ c, factors[k]? = some c ∧
      resolve_length ua ps size =
        some { value := FDIV (FMUL c (INTTOFIX ua)) (INTTOFIX 10), unit := CSS_UNIT_PT } := by
  have hlt : size.status < CSS_FONT_SIZE_LARGER := by
    simp only [CSS_FONT_SIZE_LARGER, hs]; omega
  have hidx : ((size.status : Int) - 1) = (k : Int) := by rw [hs]; push_cast; ring
  have hlen : k < factors.length := by rw [factors_eq]; simpa using hk
  have hnn : ¬ ((k : Int) < 0) := by omega
  refine ⟨factors[k], List.getElem?_eq_getElem hlen, ?_⟩
  simp [resolve_length, hlt, hidx, array_read, F_10_eq, List.getElem?_eq_getElem hlen, hnn]

theorem resolve_length_absolute (ua : Int) (ps : css_hint_length) (size : css_hint)
    (hs : size.status ≠ CSS_FONT_SIZE_INHERIT) (hps : absolute_unit ps.unit) :
    ∃ len, resolve_length ua ps size = some len ∧ absolute_unit len.unit := by
  by_cases hlt : size.status < CSS_FONT_SIZE_LARGER
  · obtain ⟨k, hk⟩ : ∃ k, size.status = k + 1 :=
      Nat.exists_eq_succ_of_ne_zero hs
    have hk7 : k < 7 := by
      simp only [CSS_FONT_SIZE_LARGER, hk] at hlt; omega
    obtain ⟨c, -, hc⟩ := resolve_length_keyword ua ps size k hk7 hk
    refine ⟨_, hc, ?_⟩
    show absolute_unit CSS_UNIT_PT
    decide
  · unfold resolve_length
    rw [if_neg hlt]
    split_ifs with h1 h2 h3 h4
    all_goals first
      | exact ⟨_, rfl, hps⟩
      | exact ⟨_, rfl, fun h => h3 (Or.inl h), fun h => h3 (Or.inr h), by assumption⟩

theorem css_saturate_of_mem (x : Int) (h1 : INT_MIN ≤ x) (h2 : x ≤ INT_MAX) :
    css_saturate x = x := by
  unfold css_saturate
  rw [if_neg (not_lt.mpr h1), if_neg (not_lt.mpr h2)]

theorem FMUL_INTTOFIX_of_mem (n v : Int) (hn1 : INT_MIN ≤ n * 1024) (hn2 : n * 1024 ≤ INT_MAX)
    (h1 : INT_MIN ≤ n * v) (h2 : n * v ≤ INT_MAX) : FMUL (INTTOFIX n) v = n * v := by
  have hn : INTTOFIX n = n * 1024 := by
    unfold INTTOFIX
    rw [show (2 : Int) ^ CSS_RADIX_POINT = 1024 by decide]
    exact css_saturate_of_mem _ hn1 hn2
  have hshift : (n * 1024 * v) >>> CSS_RADIX_POINT = n * v := by
    rw [Int.shiftRight_eq_div_pow, show ((2 ^ CSS_RADIX_POINT : Nat) : Int) = 1024 by decide,
      show n * 1024 * v = n * v * 1024 by ring]
    exact Int.mul_ediv_cancel _ (by decide)
  unfold FMUL
  rw [hn, hshift]
  exact css_saturate_of_mem _ h1 h2

theorem tdiv_fifty_percent (v : Int) : Int.tdiv (50 * v * 1024) 102400 = Int.tdiv v 2 := by
  rcases le_total 0 v with h | h
  · rw [Int.tdiv_eq_ediv (by omega) (by decide), Int.tdiv_eq_ediv h (by decide)]
    omega
  · obtain ⟨w, rfl⟩ : ∃ w, v = -w := ⟨-v, by simp⟩
    have hw : 0 ≤ w := by omega
    rw [show 50 * -w * 1024 = -(50 * w * 1024) by ring, Int.neg_tdiv, Int.neg_tdiv,
      Int.tdiv_eq_ediv (by omega) (by decide), Int.tdiv_eq_ediv hw (by decide)]
    omega

theorem FDIV_fifty_percent (v : Int) (h1 : INT_MIN ≤ 50 * v) (h2 : 50 * v ≤ INT_MAX) :
    FDIV (FMUL (INTTOFIX 50) v) (INTTOFIX 100) = Int.tdiv v 2 := by
  rw [FMUL_INTTOFIX_of_mem 50 v (by decide) (by decide) h1 h2]
  unfold FDIV
  rw [show INTTOFIX 100 = 102400 by decide, show (2 : Int) ^ CSS_RADIX_POINT = 1024 by decide,
    tdiv_fifty_percent]
  simp only [INT_MIN, INT_MAX] at h1 h2
  apply css_saturate_of_mem
  · rcases le_total 0 v with h | h
    · have := Int.tdiv_nonneg h (show (0 : Int) ≤ 2 by decide)
      simp only [INT_MIN]; omega
    · have h3 := Int.tdiv_eq_ediv (a := -v) (b := 2) (by omega) (by decide)
      rw [Int.neg_tdiv] at h3
      simp only [INT_MIN]; omega
  · rcases le_total 0 v with h | h
    · rw [Int.tdiv_eq_ediv h (by decide)]
      simp only [INT_MAX]; omega
    · have h3 := Int.tdiv_eq_ediv (a := -v) (b := 2) (by omega) (by decide)
      rw [Int.neg_tdiv] at h3
      simp only [INT_MAX]; omega

/-! ## Font-size properties -/

/-- C1: for every request whose status is not "inherit" and every parent that
is absent or a dimension in a unit other than em, ex and percent,
`compute_font_size` returns `CSS_OK` and leaves the request a concrete absolute
length: its status is `CSS_FONT_SIZE_DIMENSION` and its unit is none of em, ex
and percent. -/
theorem compute_font_size_absolute (ua : Int) (parent : Option css_hint) (size : css_hint)
    (hs : size.status ≠ CSS_FONT_SIZE_INHERIT) (hp : admissible_parent parent) :
    ∃ out, compute_font_size ua parent size = some (CSS_OK, out) ∧
      out.status = CSS_FONT_SIZE_DIMENSION ∧ absolute_unit out.data.length.unit := by
  obtain ⟨ps, hps, habs⟩ := grab_parent_size_admissible ua parent hp
  obtain ⟨len, hlen, hunit⟩ := resolve_length_absolute ua ps size hs habs
  exact ⟨_, compute_font_size_eq ua parent size ps len hs hps hlen, rfl, hunit⟩

/-- C2: for each of the seven size keywords (status `k + 1`, `k < 7`) and every
admissible parent, `compute_font_size` yields the unit point and the value
`FDIV(FMUL(c, INTTOFIX(UA_FONT_SIZE)), INTTOFIX(10))`, where `c` is entry `k`
of `factors` and stands exactly for entry `k` of the scale table
0.5625, 0.6250, 0.8125, 1.0000, 1.1250, 1.5000, 2.0000. -/
theorem compute_font_size_keyword (ua : Int) (parent : Option css_hint) (size : css_hint)
    (k : Nat) (hk : k < 7) (hs : size.status = k + 1) (hp : admissible_parent parent) :
    ∃ c, factors[k]? = some c ∧ scale_table[k]? = some (fixed_value c) ∧
      compute_font_size ua parent size =
        some (CSS_OK, as_dimension size
          { value := FDIV (FMUL c (INTTOFIX ua)) (INTTOFIX 10), unit := CSS_UNIT_PT }) := by
  obtain ⟨ps, hps, -⟩ := grab_parent_size_admissible ua parent hp
  obtain ⟨c, hc, hlen⟩ := resolve_length_keyword ua ps size k hk hs
  have hne : size.status ≠ CSS_FONT_SIZE_INHERIT := by
    simp [CSS_FONT_SIZE_INHERIT, hs]
  refine ⟨c, hc, ?_, compute_font_size_eq ua parent size ps _ hne hps hlen⟩
  rw [factors_eq] at hc
  interval_cases k <;> simp at hc <;> subst hc <;>
    norm_num [scale_table, fixed_value, CSS_RADIX_POINT]

/-- C3: for every absolute parent (value `v`, unit `u`), the request "larger"
resolves to the value `FMUL(v, FLTTOFIX(1.2))` in the unit `u`. -/
theorem compute_font_size_larger (ua : Int) (p size : css_hint)
    (hp : absolute_dimension p) (hs : size.status = CSS_FONT_SIZE_LARGER) :
    compute_font_size ua (some p) size =
      some (CSS_OK, as_dimension size
        { value := FMUL p.data.length.value (FLTTOFIX 12 10),
          unit := p.data.length.unit }) := by
  refine compute_font_size_eq ua (some p) size _ _ ?_ (grab_parent_size_some ua p hp) ?_
  · simp [hs, CSS_FONT_SIZE_LARGER, CSS_FONT_SIZE_INHERIT]
  · simp [resolve_length, hs]

/-- C4: for every absolute parent (value `v`, unit `u`), the request "smaller"
resolves to the value `FDIV(v, FLTTOFIX(1.2))` in the unit `u`. -/
theorem compute_font_size_smaller (ua : Int) (p size : css_hint)
    (hp : absolute_dimension p) (hs : size.status = CSS_FONT_SIZE_SMALLER) :
    compute_font_size ua (some p) size =
      some (CSS_OK, as_dimension size
        { value := FDIV p.data.length.value (FLTTOFIX 12 10),
          unit := p.data.length.unit }) := by
  refine compute_font_size_eq ua (some p) size _ _ ?_ (grab_parent_size_some ua p hp) ?_
  · simp [hs, CSS_FONT_SIZE_SMALLER, CSS_FONT_SIZE_INHERIT]
  · simp [resolve_length, hs, CSS_FONT_SIZE_SMALLER, CSS_FONT_SIZE_LARGER]

/-- Instance of C1 at the request "larger" against a 16pt parent. -/
theorem compute_font_size_absolute_witness :
    ((keyword_hint CSS_FONT_SIZE_LARGER).status ≠ CSS_FONT_SIZE_INHERIT ∧
      admissible_parent (some (dimension_hint 16384 CSS_UNIT_PT))) ∧
    ∃ out, compute_font_size 16 (some (dimension_hint 16384 CSS_UNIT_PT))
        (keyword_hint CSS_FONT_SIZE_LARGER) = some (CSS_OK, out) ∧
      out.status = CSS_FONT_SIZE_DIMENSION ∧ absolute_unit out.data.length.unit :=
  ⟨⟨by decide, by decide⟩,
    compute_font_size_absolute 16 (some (dimension_hint 16384 CSS_UNIT_PT))
      (keyword_hint CSS_FONT_SIZE_LARGER) (by decide) (by decide)⟩

/-- Instance of C2 at the keyword large with no parent. -/
theorem compute_font_size_keyword_witness :
    (4 < 7 ∧ (keyword_hint CSS_FONT_SIZE_LARGE).status = 4 + 1 ∧ admissible_parent none) ∧
    ∃ c, factors[4]? = some c ∧ scale_table[4]? = some (fixed_value c) ∧
      compute_font_size 16 none (keyword_hint CSS_FONT_SIZE_LARGE) =
        some (CSS_OK, as_dimension (keyword_hint CSS_FONT_SIZE_LARGE)
          { value := FDIV (FMUL c (INTTOFIX 16)) (INTTOFIX 10), unit := CSS_UNIT_PT }) :=
  ⟨⟨by decide, by decide, by decide⟩,
    compute_font_size_keyword 16 none (keyword_hint CSS_FONT_SIZE_LARGE) 4
      (by decide) (by decide) (by decide)⟩

/-- Instance of C3 at a 10pt parent. -/
theorem compute_font_size_larger_witness :
    (absolute_dimension (dimension_hint 10240 CSS_UNIT_PT) ∧
      (keyword_hint CSS_FONT_SIZE_LARGER).status = CSS_FONT_SIZE_LARGER) ∧
    compute_font_size 16 (some (dimension_hint 10240 CSS_UNIT_PT))
        (keyword_hint CSS_FONT_SIZE_LARGER) =
      some (CSS_OK, as_dimension (keyword_hint CSS_FONT_SIZE_LARGER)
        { value := FMUL 10240 (FLTTOFIX 12 10), unit := CSS_UNIT_PT }) :=
  ⟨⟨by decide, by decide⟩,
    compute_font_size_larger 16 (dimension_hint 10240 CSS_UNIT_PT)
      (keyword_hint CSS_FONT_SIZE_LARGER) (by decide) (by decide)⟩

/-- Instance of C4 at a 12px parent. -/
theorem compute_font_size_smaller_witness :
    (absolute_dimension (dimension_hint 12288 CSS_UNIT_PX) ∧
      (keyword_hint CSS_FONT_SIZE_SMALLER).status = CSS_FONT_SIZE_SMALLER) ∧
    compute_font_size 16 (some (dimension_hint 12288 CSS_UNIT_PX))
        (keyword_hint CSS_FONT_SIZE_SMALLER) =
      some (CSS_OK, as_dimension (keyword_hint CSS_FONT_SIZE_SMALLER)
        { value := FDIV 12288 (FLTTOFIX 12 10), unit := CSS_UNIT_PX }) :=
  ⟨⟨by decide, by decide⟩,
    compute_font_size_smaller 16 (dimension_hint 12288 CSS_UNIT_PX)
      (keyword_hint CSS_FONT_SIZE_SMALLER) (by decide) (by decide)⟩

/-- C5, as stated, fails: against the absolute parent `2 ^ 30` (raw) in
points, the request 2em resolves to the clamped value `INT_MAX`, which is not
twice the parent value. -/
theorem compute_font_size_two_em_saturates :
    compute_font_size 16 (some (dimension_hint 1073741824 CSS_UNIT_PT))
        (dimension_hint (INTTOFIX 2) CSS_UNIT_EM) =
      some (CSS_OK, dimension_hint 2147483647 CSS_UNIT_PT) ∧
    (2147483647 : Int) ≠ 2 * 1073741824 := by
  decide

/-- C5, amended: for every absolute parent (value `v`, unit `u`) and every
dimension request of value `r`, a request in em resolves to `FMUL(r, v)` and a
request in ex to `FMUL(FMUL(r, v), FLTTOFIX(0.6))`, both in the unit `u`; a
request of 2em resolves to exactly `2 * v` whenever `2 * v` lies in the
`css_fixed` range. -/
theorem compute_font_size_em_ex (ua : Int) (p size : css_hint)
    (hp : absolute_dimension p) (hs : size.status = CSS_FONT_SIZE_DIMENSION) :
    (size.data.length.unit = CSS_UNIT_EM →
      compute_font_size ua (some p) size =
        some (CSS_OK, as_dimension size
          { value := FMUL size.data.length.value p.data.length.value,
            unit := p.data.length.unit })) ∧
    (size.data.length.unit = CSS_UNIT_EX →
      compute_font_size ua (some p) size =
        some (CSS_OK, as_dimension size
          { value := FMUL (FMUL size.data.length.value p.data.length.value) (FLTTOFIX 6 10),
            unit := p.data.length.unit })) ∧
    (size.data.length.unit = CSS_UNIT_EM → size.data.length.value = INTTOFIX 2 →
      INT_MIN ≤ 2 * p.data.length.value → 2 * p.data.length.value ≤ INT_MAX →
      compute_font_size ua (some p) size =
        some (CSS_OK, as_dimension size
          { value := 2 * p.data.length.value, unit := p.data.length.unit })) := by
  have hne : size.status ≠ CSS_FONT_SIZE_INHERIT := by
    simp [hs, CSS_FONT_SIZE_DIMENSION, CSS_FONT_SIZE_INHERIT]
  have hem : size.data.length.unit = CSS_UNIT_EM →
      compute_font_size ua (some p) size =
        some (CSS_OK, as_dimension size
          { value := FMUL size.data.length.value p.data.length.value,
            unit := p.data.length.unit }) := by
    intro hu
    refine compute_font_size_eq ua (some p) size _ _ hne (grab_parent_size_some ua p hp) ?_
    simp [resolve_length, hs, hu, CSS_FONT_SIZE_DIMENSION, CSS_FONT_SIZE_LARGER,
      CSS_FONT_SIZE_SMALLER]
  refine ⟨hem, ?_, ?_⟩
  · intro hu
    refine compute_font_size_eq ua (some p) size _ _ hne (grab_parent_size_some ua p hp) ?_
    simp [resolve_length, hs, hu, CSS_FONT_SIZE_DIMENSION, CSS_FONT_SIZE_LARGER,
      CSS_FONT_SIZE_SMALLER]
  · intro hu hr h1 h2
    rw [hem hu, hr, FMUL_INTTOFIX_of_mem 2 _ (by decide) (by decide) h1 h2]

/-- Instance of C5, amended, at the request 2em against a 12pt parent. -/
theorem compute_font_size_em_ex_witness :
    (absolute_dimension (dimension_hint 12288 CSS_UNIT_PT) ∧
      (dimension_hint (INTTOFIX 2) CSS_UNIT_EM).status = CSS_FONT_SIZE_DIMENSION) ∧
    compute_font_size 16 (some (dimension_hint 12288 CSS_UNIT_PT))
        (dimension_hint (INTTOFIX 2) CSS_UNIT_EM) =
      some (CSS_OK, as_dimension (dimension_hint (INTTOFIX 2) CSS_UNIT_EM)
        { value := 2 * 12288, unit := CSS_UNIT_PT }) :=
  ⟨⟨by decide, by decide⟩,
    (compute_font_size_em_ex 16 (dimension_hint 12288 CSS_UNIT_PT)
      (dimension_hint (INTTOFIX 2) CSS_UNIT_EM) (by decide) (by decide)).2.2
        (by decide) (by decide) (by decide) (by decide)⟩

/-- C6, as stated, fails: a 50 percent request against the absolute parent
of raw value 1025 resolves to 512, which is not half of 1025 (the division
truncates); against the parent `2 ^ 30` the product is clamped first and the
result is not half of the parent either. -/
theorem compute_font_size_fifty_percent_inexact :
    (compute_font_size 16 (some (dimension_hint 1025 CSS_UNIT_PT))
        (dimension_hint (INTTOFIX 50) CSS_UNIT_PCT) =
      some (CSS_OK, dimension_hint 512 CSS_UNIT_PT) ∧
      fixed_value 512 ≠ 0.5 * fixed_value 1025) ∧
    (compute_font_size 16 (some (dimension_hint 1073741824 CSS_UNIT_PT))
        (dimension_hint (INTTOFIX 50) CSS_UNIT_PCT) =
      some (CSS_OK, dimension_hint 21474836 CSS_UNIT_PT) ∧
      fixed_value 21474836 ≠ 0.5 * fixed_value 1073741824) := by
  refine ⟨⟨by decide, ?_⟩, ⟨by decide, ?_⟩⟩ <;>
    norm_num [fixed_value, CSS_RADIX_POINT]

/-- C6, amended: for every absolute parent (value `v`, unit `u`) and every
dimension request of value `r` in percent, the result is
`FDIV(FMUL(r, v), INTTOFIX(100))` in the unit `u`; for a request of 50 percent
whose product `50 * v` lies in the `css_fixed` range this is `v / 2` rounded
toward zero, which is exactly `0.5 * v` when the raw value `v` is even. -/
theorem compute_font_size_percent (ua : Int) (p size : css_hint)
    (hp : absolute_dimension p) (hs : size.status = CSS_FONT_SIZE_DIMENSION)
    (hu : size.data.length.unit = CSS_UNIT_PCT) :
    compute_font_size ua (some p) size =
      some (CSS_OK, as_dimension size
        { value := FDIV (FMUL size.data.length.value p.data.length.value) (INTTOFIX 100),
          unit := p.data.length.unit }) ∧
    (size.data.length.value = INTTOFIX 50 →
      INT_MIN ≤ 50 * p.data.length.value → 50 * p.data.length.value ≤ INT_MAX →
      compute_font_size ua (some p) size =
        some (CSS_OK, as_dimension size
          { value := Int.tdiv p.data.length.value 2, unit := p.data.length.unit }) ∧
      (2 ∣ p.data.length.value →
        fixed_value (Int.tdiv p.data.length.value 2) = 0.5 * fixed_value p.data.length.value)) := by
  have hne : size.status ≠ CSS_FONT_SIZE_INHERIT := by
    simp [hs, CSS_FONT_SIZE_DIMENSION, CSS_FONT_SIZE_INHERIT]
  have hpct : compute_font_size ua (some p) size =
      some (CSS_OK, as_dimension size
        { value := FDIV (FMUL size.data.length.value p.data.length.value) (INTTOFIX 100),
          unit := p.data.length.unit }) := by
    refine compute_font_size_eq ua (some p) size _ _ hne (grab_parent_size_some ua p hp) ?_
    simp [resolve_length, hs, hu, CSS_FONT_SIZE_DIMENSION, CSS_FONT_SIZE_LARGER,
      CSS_FONT_SIZE_SMALLER]
  refine ⟨hpct, ?_⟩
  intro hr h1 h2
  refine ⟨?_, ?_⟩
  · rw [hpct, hr, FDIV_fifty_percent _ h1 h2]
  · rintro ⟨w, hw⟩
    rw [hw, Int.mul_tdiv_cancel_left _ (by decide)]
    simp only [fixed_value]
    push_cast
    ring

/-- Instance of C6, amended, at the request 50 percent against a 16pt parent. -/
theorem compute_font_size_percent_witness :
    (absolute_dimension (dimension_hint 16384 CSS_UNIT_PT) ∧
      (dimension_hint (INTTOFIX 50) CSS_UNIT_PCT).status = CSS_FONT_SIZE_DIMENSION ∧
      (dimension_hint (INTTOFIX 50) CSS_UNIT_PCT).data.length.unit = CSS_UNIT_PCT) ∧
    compute_font_size 16 (some (dimension_hint 16384 CSS_UNIT_PT))
        (dimension_hint (INTTOFIX 50) CSS_UNIT_PCT) =
      some (CSS_OK, as_dimension (dimension_hint (INTTOFIX 50) CSS_UNIT_PCT)
        { value := Int.tdiv 16384 2, unit := CSS_UNIT_PT }) :=
  ⟨⟨by decide, by decide, by decide⟩,
    ((compute_font_size_percent 16 (dimension_hint 16384 CSS_UNIT_PT)
      (dimension_hint (INTTOFIX 50) CSS_UNIT_PCT) (by decide) (by decide) (by decide)).2
        (by decide) (by decide) (by decide)).1⟩

/-- C7: for every dimension request whose unit is none of em, ex and percent
and every admissible parent, `compute_font_size` returns `CSS_OK` and leaves
the request as it was: same value, same unit, whatever the parent is. -/
theorem compute_font_size_passthrough (ua : Int) (parent : Option css_hint) (size : css_hint)
    (hp : admissible_parent parent) (hs : size.status = CSS_FONT_SIZE_DIMENSION)
    (hu : absolute_unit size.data.length.unit) :
    compute_font_size ua parent size = some (CSS_OK, size) := by
  obtain ⟨ps, hps, -⟩ := grab_parent_size_admissible ua parent hp
  obtain ⟨hem, hex, hpct⟩ := hu
  have hne : size.status ≠ CSS_FONT_SIZE_INHERIT := by
    simp [hs, CSS_FONT_SIZE_DIMENSION, CSS_FONT_SIZE_INHERIT]
  have hlen : resolve_length ua ps size = some size.data.length := by
    simp [resolve_length, hs, hem, hex, hpct, CSS_FONT_SIZE_DIMENSION, CSS_FONT_SIZE_LARGER,
      CSS_FONT_SIZE_SMALLER]
  rw [compute_font_size_eq ua parent size ps _ hne hps hlen]
  obtain ⟨data, status⟩ := size
  simp only [as_dimension] at hs ⊢
  rw [hs]

/-- Instance of C7 at the request 20px against a 16pt parent. -/
theorem compute_font_size_passthrough_witness :
    (admissible_parent (some (dimension_hint 16384 CSS_UNIT_PT)) ∧
      (dimension_hint 20480 CSS_UNIT_PX).status = CSS_FONT_SIZE_DIMENSION ∧
      absolute_unit (dimension_hint 20480 CSS_UNIT_PX).data.length.unit) ∧
    compute_font_size 16 (some (dimension_hint 16384 CSS_UNIT_PT))
        (dimension_hint 20480 CSS_UNIT_PX) =
      some (CSS_OK, dimension_hint 20480 CSS_UNIT_PX) :=
  ⟨⟨by decide, by decide, by decide⟩,
    compute_font_size_passthrough 16 (some (dimension_hint 16384 CSS_UNIT_PT))
      (dimension_hint 20480 CSS_UNIT_PX) (by decide) (by decide) (by decide)⟩

/-- C8: with no parent supplied, `compute_font_size` resolves every request
that is not "inherit" (it returns a result), and the result is the one it
gives against the parent dimension
`FDIV(FMUL(FLTTOFIX(1.0), INTTOFIX(UA_FONT_SIZE)), INTTOFIX(10))` in points,
`FLTTOFIX(1.0)` being the entry of `factors` read for medium, the fourth
keyword. -/
theorem compute_font_size_default_parent (ua : Int) (size : css_hint) (d : css_hint_data)
    (hs : size.status ≠ CSS_FONT_SIZE_INHERIT) :
    CSS_FONT_SIZE_MEDIUM = 4 ∧
    array_read factors ((CSS_FONT_SIZE_MEDIUM : Int) - 1) = some (FLTTOFIX 10000 10000) ∧
    scale_table[3]? = some (fixed_value (FLTTOFIX 10000 10000)) ∧
    (compute_font_size ua none size).isSome = true ∧
    compute_font_size ua none size =
      compute_font_size ua
        (some { data := { d with length :=
                  { value := FDIV (FMUL (FLTTOFIX 10000 10000) (INTTOFIX ua)) (INTTOFIX 10),
                    unit := CSS_UNIT_PT } },
                status := CSS_FONT_SIZE_DIMENSION }) size := by
  refine ⟨rfl, by decide, ?_, ?_, ?_⟩
  · norm_num [scale_table, fixed_value, CSS_RADIX_POINT, FLTTOFIX]
  · obtain ⟨ps, hps, habs⟩ := grab_parent_size_admissible ua none trivial
    obtain ⟨len, hlen, -⟩ := resolve_length_absolute ua ps size hs habs
    rw [compute_font_size_eq ua none size ps len hs hps hlen]
    rfl
  · have hsome := grab_parent_size_some ua
      { data := { d with length :=
                  { value := FDIV (FMUL (FLTTOFIX 10000 10000) (INTTOFIX ua)) (INTTOFIX 10),
                    unit := CSS_UNIT_PT } },
        status := CSS_FONT_SIZE_DIMENSION } ⟨rfl, (by decide : absolute_unit CSS_UNIT_PT)⟩
    simp only [compute_font_size, grab_parent_size_none, hsome]

/-- Instance of C8 at the request "smaller" with a base font size of 16. -/
theorem compute_font_size_default_parent_witness :
    (keyword_hint CSS_FONT_SIZE_SMALLER).status ≠ CSS_FONT_SIZE_INHERIT ∧
    compute_font_size 16 none (keyword_hint CSS_FONT_SIZE_SMALLER) =
      compute_font_size 16
        (some { data := { (keyword_hint 0).data with length :=
                  { value := FDIV (FMUL (FLTTOFIX 10000 10000) (INTTOFIX 16)) (INTTOFIX 10),
                    unit := CSS_UNIT_PT } },
                status := CSS_FONT_SIZE_DIMENSION }) (keyword_hint CSS_FONT_SIZE_SMALLER) :=
  ⟨by decide,
    (compute_font_size_default_parent 16 (keyword_hint CSS_FONT_SIZE_SMALLER)
      (keyword_hint 0).data (by decide)).2.2.2.2⟩

/-! ## Node-data store properties -/

/-- C9 is not met by the code: whatever the unspecified values are,
`set_libcss_node_data(A, d)` on the empty store appends a node whose `id` is
the data pointer and whose `data` is the argument that was not passed, and
`get_libcss_node_data(A)` right after it faults when `match` reads as false
and returns that missing argument when `match` reads as true; it does not
return `d`. -/
theorem set_then_get_loses_data :
    (∀ (u : unspecified) (d : void_ptr),
      set_libcss_node_data u [] "A" d =
        (CSS_OK, [{ id := u.as_lwc_string d, data := u.missing_argument }])) ∧
    (∀ (u v : unspecified) (d : void_ptr),
      get_libcss_node_data v (set_libcss_node_data u [] "A" d).2 "A" =
        if v.match_value 0 then some (CSS_OK, u.missing_argument) else none) ∧
    get_libcss_node_data match_clear
        (set_libcss_node_data match_clear [] "A" (some 7)).2 "A" = none ∧
    get_libcss_node_data match_set
        (set_libcss_node_data match_set [] "A" (some 7)).2 "A" = some (CSS_OK, none) := by
  refine ⟨fun u d => rfl, ?_, by decide, by decide⟩
  intro u v d
  by_cases h : v.match_value 0 = true
  · simp [set_libcss_node_data, update_node_data, get_node_data_by_id, append_node_data,
      get_libcss_node_data, h]
  · simp [set_libcss_node_data, update_node_data, get_node_data_by_id, append_node_data,
      get_libcss_node_data, h]

/-- C10 is not met by the code: on the initial empty store, whatever the
unspecified values are, `get_node_data_by_id` returns `NULL` and
`get_libcss_node_data` then reads `nd->data` through it, a fault instead of
`CSS_OK` with a `NULL` result; so it is after a set for another handle when
`match` reads as false. -/
theorem get_libcss_node_data_unseen_faults :
    (∀ match_value : Nat → Bool, get_node_data_by_id match_value [] "B" = none) ∧
    (∀ u : unspecified, get_libcss_node_data u [] "B" = none) ∧
    (∀ u : unspecified, get_libcss_node_data u [] "B" ≠ some (CSS_OK, none)) ∧
    get_libcss_node_data match_clear
        (set_libcss_node_data match_clear [] "A" (some 1)).2 "B" = none := by
  refine ⟨fun _ => rfl, fun _ => rfl, ?_, by decide⟩
  intro u h
  simp [get_libcss_node_data, get_node_data_by_id] at h

/-! ## Lemmas on C strings -/

theorem take_length_takeWhile (p : Char → Bool) (l : List Char) :
    l.take (l.takeWhile p).length = l.takeWhile p := by
  induction l with
  | nil => rfl
  | cons c rest ih =>
    by_cases h : p c
    · simp [List.takeWhile_cons, h, ih]
    · simp [List.takeWhile_cons, h]

theorem lwc_intern_string_strlen (s : String) :
    lwc_intern_string s (strlen s) = c_string s := by
  simp only [lwc_intern_string, strlen, c_string, take_length_takeWhile]

theorem c_deref_eq_NUL_iff (s : String) : c_deref s = NUL ↔ c_string s = "" := by
  obtain ⟨l⟩ := s
  cases l with
  | nil => simp [c_deref, c_string]
  | cons c rest =>
    by_cases h : c = NUL
    · simp [c_deref, c_string, List.takeWhile_cons, h]
    · simp [c_deref, c_string, List.takeWhile_cons, h, String.ext_iff]

/-! ## Properties of the store, the adapter and the callbacks -/

/-- C11 is not met by the code: from the empty store, with `match` reading
as false, two calls of `set_libcss_node_data` for the handle `A` with the
same data leave two entries, and both carry the same handle, that of the data
pointer; the second call has not found the first entry and none carries
`A`. -/
theorem repeated_set_duplicates_entry :
    run_sets match_clear [("A", some 7), ("A", some 7)] =
      [⟨pointer_as_text (some 7), none⟩, ⟨pointer_as_text (some 7), none⟩] ∧
    ¬ ((run_sets match_clear [("A", some 7), ("A", some 7)]).map node_data.id).Nodup ∧
    "A" ∉ (run_sets match_clear [("A", some 7), ("A", some 7)]).map node_data.id :=
  ⟨by decide, by decide, by decide⟩

/-- C15 is not met by the code: for every node and host query `get_string`
and `match_string` return `CSS_OK` and store the interned C string of the
host, never `NULL`; when the host returns the empty string they store the
interned string of length zero. -/
theorem get_string_never_null :
    (∀ (node : lwc_string) (js_fun : String → String),
      get_string node js_fun = (CSS_OK, some (c_string (js_fun node)))) ∧
    (∀ (node s : lwc_string) (js_find : String → String → String),
      match_string node (some s) js_find =
        some (CSS_OK, some (c_string (js_find node s)))) ∧
    get_string "n" (fun _ => "") = (CSS_OK, some "") ∧
    match_string "n" (some "div") (fun _ _ => "") = some (CSS_OK, some "") := by
  refine ⟨?_, ?_, by decide, by decide⟩
  · intro node js_fun
    simp [get_string, char_eq_literal, lwc_string_data, lwc_intern_string_strlen]
  · intro node s js_find
    simp [match_string, char_eq_literal, lwc_string_data, lwc_intern_string_strlen]

/-- C16 is not met by the code: whenever the search parameter or the match
parameter is absent, `match_bool` reads through `NULL_STR`, which is `NULL`,
and faults before the host is called; only with both parameters present does
it call the host with the three strings in order and return `CSS_OK` with the
boolean of the answer. -/
theorem match_bool_absent_parameter_faults :
    (∀ (node : lwc_string) (m : Option lwc_string) (js_fun : String → String → String → Nat),
      match_bool node none m js_fun = none) ∧
    (∀ (node : lwc_string) (s : Option lwc_string) (js_fun : String → String → String → Nat),
      match_bool node s none js_fun = none) ∧
    (∀ (node s m : lwc_string) (js_fun : String → String → String → Nat),
      match_bool node (some s) (some m) js_fun = some (CSS_OK, js_fun node s m != 0)) ∧
    match_bool "n" none none (fun _ _ _ => bool_word true) = none := by
  refine ⟨fun node m js_fun => rfl, ?_, fun node s m js_fun => rfl, rfl⟩
  intro node s js_fun
  cases s <;> rfl

/-- C17: `ua_default_for_property` returns `CSS_OK` exactly for color,
font-family, quotes and voice-family and `CSS_INVALID`, the hint untouched,
for every other property; for color the hint holds `0xff000000` with status
`CSS_COLOR_COLOR`, for font-family the status sans-serif and for quotes the
status none, both with no strings. -/
theorem ua_default_for_property_cases (property : css_properties_e) (hint : css_hint) :
    ((ua_default_for_property property hint).1 = CSS_OK ↔
      property = CSS_PROP_COLOR ∨ property = CSS_PROP_FONT_FAMILY ∨
      property = CSS_PROP_QUOTES ∨ property = CSS_PROP_VOICE_FAMILY) ∧
    ((ua_default_for_property property hint).1 ≠ CSS_OK →
      ua_default_for_property property hint = (CSS_INVALID, hint)) ∧
    ((ua_default_for_property CSS_PROP_COLOR hint).2.data.color = 0xff000000 ∧
      (ua_default_for_property CSS_PROP_COLOR hint).2.status = CSS_COLOR_COLOR) ∧
    ((ua_default_for_property CSS_PROP_FONT_FAMILY hint).2.data.strings = none ∧
      (ua_default_for_property CSS_PROP_FONT_FAMILY hint).2.status =
        CSS_FONT_FAMILY_SANS_SERIF) ∧
    ((ua_default_for_property CSS_PROP_QUOTES hint).2.data.strings = none ∧
      (ua_default_for_property CSS_PROP_QUOTES hint).2.status = CSS_QUOTES_NONE) := by
  refine ⟨?_, ?_, ⟨rfl, rfl⟩, ⟨rfl, rfl⟩, ⟨rfl, rfl⟩⟩
  · cases property <;> simp [ua_default_for_property]
  · cases property <;> simp [ua_default_for_property]

/-- C20: for every node, `node_presentational_hint` returns `CSS_OK` with
`nhints = 0` and `hints = NULL`. -/
theorem node_presentational_hint_none (node : lwc_string) :
    node_presentational_hint node = (CSS_OK, 0, none) :=
  rfl

theorem FMUL_larger (v : Int) (h1 : INT_MIN ≤ v * 1228 / 1024) (h2 : v * 1228 / 1024 ≤ INT_MAX) :
    FMUL v (FLTTOFIX 12 10) = v * 1228 / 1024 := by
  unfold FMUL
  rw [show FLTTOFIX 12 10 = 1228 by decide, Int.shiftRight_eq_div_pow,
    show ((2 ^ CSS_RADIX_POINT : Nat) : Int) = 1024 by decide]
  exact css_saturate_of_mem _ h1 h2

/-- C18, as stated, fails: a 10pt parent (raw 10240) resolves for "larger"
to raw 12280, that is 11.9921875pt, not 1.2 times 10pt. -/
theorem compute_font_size_larger_not_exact :
    compute_font_size 16 (some (dimension_hint 10240 CSS_UNIT_PT))
        (keyword_hint CSS_FONT_SIZE_LARGER) =
      some (CSS_OK, as_dimension (keyword_hint CSS_FONT_SIZE_LARGER)
        { value := 12280, unit := CSS_UNIT_PT }) ∧
    fixed_value 10240 = 10 ∧
    fixed_value 12280 ≠ 1.2 * fixed_value 10240 := by
  refine ⟨by decide, ?_, ?_⟩ <;> norm_num [fixed_value, CSS_RADIX_POINT]

/-- C18, amended: for every absolute parent of value `v` whose product stays
in the `css_fixed` range, the value produced for "larger" is
`v * 1228 / 1024` rounded down in raw units: as numbers, it is the parent
value times 1228/1024 = 1.19921875 rounded down to a multiple of 1/1024, and
for a positive parent it is less than 1.2 times the parent value. -/
theorem compute_font_size_larger_value (ua : Int) (p size : css_hint)
    (hp : absolute_dimension p) (hs : size.status = CSS_FONT_SIZE_LARGER)
    (h1 : INT_MIN ≤ p.data.length.value * 1228 / 1024)
    (h2 : p.data.length.value * 1228 / 1024 ≤ INT_MAX) :
    compute_font_size ua (some p) size =
      some (CSS_OK, as_dimension size
        { value := p.data.length.value * 1228 / 1024, unit := p.data.length.unit }) ∧
    fixed_value (p.data.length.value * 1228 / 1024) ≤
      1228 / 1024 * fixed_value p.data.length.value ∧
    1228 / 1024 * fixed_value p.data.length.value <
      fixed_value (p.data.length.value * 1228 / 1024) + 1 / 1024 ∧
    (0 < p.data.length.value →
      fixed_value (p.data.length.value * 1228 / 1024) < 1.2 * fixed_value p.data.length.value) := by
  have hlow : p.data.length.value * 1228 / 1024 * 1024 ≤ p.data.length.value * 1228 :=
    (fun v : Int => (by omega : v * 1228 / 1024 * 1024 ≤ v * 1228)) _
  have hhigh : p.data.length.value * 1228 < (p.data.length.value * 1228 / 1024 + 1) * 1024 :=
    (fun v : Int => (by omega : v * 1228 < (v * 1228 / 1024 + 1) * 1024)) _
  have hlowq : ((p.data.length.value * 1228 / 1024 : Int) : ℚ) * 1024 ≤
      (p.data.length.value : ℚ) * 1228 := by exact_mod_cast hlow
  have hhighq : (p.data.length.value : ℚ) * 1228 <
      (((p.data.length.value * 1228 / 1024 : Int) : ℚ) + 1) * 1024 := by exact_mod_cast hhigh
  refine ⟨?_, ?_, ?_, ?_⟩
  · have hne : size.status ≠ CSS_FONT_SIZE_INHERIT := by
      simp [hs, CSS_FONT_SIZE_LARGER, CSS_FONT_SIZE_INHERIT]
    refine compute_font_size_eq ua (some p) size _ _ hne (grab_parent_size_some ua p hp) ?_
    simp [resolve_length, hs, FMUL_larger _ h1 h2]
  · simp only [fixed_value, CSS_RADIX_POINT]
    norm_num
    linarith
  · simp only [fixed_value, CSS_RADIX_POINT]
    norm_num
    linarith
  · intro hv
    have hvq : (0 : ℚ) < (p.data.length.value : ℚ) := by exact_mod_cast hv
    simp only [fixed_value, CSS_RADIX_POINT]
    norm_num
    linarith

/-- Instance of C18, amended, at a 10pt parent. -/
theorem compute_font_size_larger_value_witness :
    (absolute_dimension (dimension_hint 10240 CSS_UNIT_PT) ∧
      (keyword_hint CSS_FONT_SIZE_LARGER).status = CSS_FONT_SIZE_LARGER ∧
      INT_MIN ≤ (dimension_hint 10240 CSS_UNIT_PT).data.length.value * 1228 / 1024 ∧
      (dimension_hint 10240 CSS_UNIT_PT).data.length.value * 1228 / 1024 ≤ INT_MAX) ∧
    compute_font_size 16 (some (dimension_hint 10240 CSS_UNIT_PT))
        (keyword_hint CSS_FONT_SIZE_LARGER) =
      some (CSS_OK, as_dimension (keyword_hint CSS_FONT_SIZE_LARGER)
        { value := (dimension_hint 10240 CSS_UNIT_PT).data.length.value * 1228 / 1024,
          unit := CSS_UNIT_PT }) :=
  ⟨⟨by decide, by decide, by decide, by decide⟩,
    (compute_font_size_larger_value 16 (dimension_hint 10240 CSS_UNIT_PT)
      (keyword_hint CSS_FONT_SIZE_LARGER) (by decide) (by decide) (by decide) (by decide)).1⟩

/-- C19 is not met by `named_parent_node`: with a host that answers every
query with the node "body", the five other navigation callbacks return
`CSS_OK` and store that node in their output parameter, while
`named_parent_node` returns `CSS_OK` and leaves `*parent` as the caller set
it (here `NULL`), the result going to `ancestor`. -/
theorem named_parent_node_leaves_parent :
    named_parent_node (constant_host "body") "p" ⟨none, some "body"⟩ none =
      some (CSS_OK, none) ∧
    named_parent_node (constant_host "body") "p" ⟨none, some "body"⟩ none ≠
      some (CSS_OK, some "body") ∧
    named_ancestor_node (constant_host "body") "p" ⟨none, some "body"⟩ =
      some (CSS_OK, some "body") ∧
    named_sibling_node (constant_host "body") "p" ⟨none, some "body"⟩ =
      some (CSS_OK, some "body") ∧
    named_generic_sibling_node (constant_host "body") "p" ⟨none, some "body"⟩ =
      some (CSS_OK, some "body") ∧
    parent_node (constant_host "body") "p" = (CSS_OK, some "body") ∧
    sibling_node (constant_host "body") "p" = (CSS_OK, some "body") := by
  decide

/-- C12 is not met by the code: for the class-list text `["a","b"]` and a
pointer size of 4 or 8 the second name is stored at
`ptr_array[1 * sizeof(lwc_string*)]`, outside the array allocated, a
fault; and for the one-name text `["a"]` the terminator is written one cell
too far, so the name interned is "a" followed by what the stack held. -/
theorem node_classes_two_names_faults :
    node_classes 8 zeroed_stack (constant_host "[\"a\",\"b\"]") "n" = none ∧
    node_classes 4 zeroed_stack (constant_host "[\"a\",\"b\"]") "n" = none ∧
    node_classes 8 dirty_stack (constant_host "[\"a\"]") "n" =
      some (CSS_OK, some [some "ax"], 1) :=
  ⟨by decide, by decide, by decide⟩

/-- C13 is met for the empty string and not for the empty array: for the
empty text `node_classes` returns `CSS_OK`, `NULL` and `n_classes = 0`; for
the text `[]` it returns `n_classes = 1` and an array holding one token, the
empty string when the stack was zeroed and a stale byte otherwise. -/
theorem node_classes_empty_array_one_class :
    node_classes 8 zeroed_stack (constant_host "") "n" = some (CSS_OK, none, 0) ∧
    node_classes 8 zeroed_stack (constant_host "[]") "n" = some (CSS_OK, some [some ""], 1) ∧
    node_classes 8 dirty_stack (constant_host "[]") "n" = some (CSS_OK, some [some "x"], 1) :=
  ⟨by decide, by decide, by decide⟩

/-- C14 is not met by the code: for the unterminated text `["a`
`node_classes` returns `CSS_OK` with `n_classes = 1` and a cell never
written, for the text `["a","b"` without its closing bracket it returns
`n_classes = 1` as well, and for the text `["a,b"]` with a delimiter inside
the quotes it stores outside the array, a fault. -/
theorem node_classes_malformed_not_zero :
    node_classes 8 zeroed_stack (constant_host "[\"a") "n" = some (CSS_OK, some [none], 1) ∧
    node_classes 8 zeroed_stack (constant_host "[\"a\",\"b\"") "n" =
      some (CSS_OK, some [some "a"], 1) ∧
    node_classes 8 zeroed_stack (constant_host "[\"a,b\"]") "n" = none :=
  ⟨by decide, by decide, by decide⟩

/-! ## Lemmas on the loops of `node_classes` -/

theorem drop_eq_cons_succ {α : Type} (l : List α) (i : Nat) (c : α) (r : List α)
    (h : l.drop i = c :: r) : l.drop (i + 1) = r ∧ i < l.length := by
  induction l generalizing i with
  | nil => simp at h
  | cons a rest ih =>
    cases i with
    | zero =>
      simp only [List.drop_zero, List.cons.injEq] at h
      simp [h.2]
    | succ k =>
      simp only [List.drop_succ_cons] at h
      obtain ⟨h1, h2⟩ := ih k h
      exact ⟨by simpa using h1, by simpa using h2⟩

theorem c_char_at_cons_succ (c : Char) (rest : List Char) (i : Nat) :
    c_char_at (c :: rest) (i + 1) = c_char_at rest i := by
  simp [c_char_at]

theorem c_char_at_c_string (text : List Char) (i : Nat)
    (h : i ≤ (text.takeWhile (· != NUL)).length) :
    c_char_at text i = some (((text.takeWhile (· != NUL)).drop i).headD NUL) := by
  induction text generalizing i with
  | nil =>
    simp at h
    subst h
    rfl
  | cons c rest ih =>
    by_cases hc : (c != NUL) = true
    · rw [List.takeWhile_cons_of_pos (p := (· != NUL)) hc] at h ⊢
      cases i with
      | zero => simp [c_char_at]
      | succ k =>
        rw [c_char_at_cons_succ, List.drop_succ_cons]
        exact ih k (by simpa using h)
    · rw [List.takeWhile_cons_of_neg (p := (· != NUL)) hc] at h ⊢
      simp at h
      subst h
      have : c = NUL := by simpa using hc
      simp [c_char_at, this]

theorem c_string_no_NUL (text : List Char) (c : Char)
    (h : c ∈ text.takeWhile (· != NUL)) : c ≠ NUL := by
  have := List.mem_takeWhile_imp h
  simpa using this

theorem count_classes_eq (text : List Char) (fuel i n : Nat)
    (hi : i ≤ (text.takeWhile (· != NUL)).length)
    (hfuel : ((text.takeWhile (· != NUL)).drop i).length < fuel) :
    count_classes text fuel i n = some n := by
  induction fuel generalizing i with
  | zero => omega
  | succ fuel ih =>
    rw [count_classes, c_char_at_c_string text i hi]
    cases hr : (text.takeWhile (· != NUL)).drop i with
    | nil => simp
    | cons c r =>
      obtain ⟨hdrop, hlt⟩ := drop_eq_cons_succ _ i c r hr
      have hc : c ≠ NUL := c_string_no_NUL text c (by
        have : c ∈ (text.takeWhile (· != NUL)).drop i := by rw [hr]; exact List.mem_cons_self c r
        exact List.mem_of_mem_drop this)
      rw [hr] at hfuel
      have hfuel2 : ((text.takeWhile (· != NUL)).drop (i + 1)).length < fuel := by
        rw [hdrop]; simp at hfuel; omega
      simp only [List.headD_cons, Option.some_bind, Option.bind_eq_bind, if_neg hc,
        c_char_at_c_string text (i + 1) hlt, char_eq_literal, Bool.false_eq_true, if_false]
      exact ih (i + 1) hlt hfuel2

theorem array_write_of_lt {α : Type} (array : List α) (i : Nat) (x : α) (h : i < array.length) :
    array_write array i x = some (array.set i x) := by
  simp [array_write, h]

theorem scan_classes_total (sizeof_ptr : Nat) (text : List Char) (fuel : Nat) (st : class_scan)
    (hp : st.current_c + st.offset ≤ (text.takeWhile (· != NUL)).length)
    (hfuel : ((text.takeWhile (· != NUL)).drop (st.current_c + st.offset)).length < fuel)
    (hbuf : st.current_class.length = (text.takeWhile (· != NUL)).length + 1)
    (harr : 0 < st.ptr_array.length)
    (hdel : st.classes_processed +
      ((text.takeWhile (· != NUL)).drop (st.current_c + st.offset)).countP
        (fun c => decide (c = ',' ∨ c = ']')) ≤ 1) :
    ∃ st', scan_classes sizeof_ptr text fuel st = some st' ∧
      st'.ptr_array.length = st.ptr_array.length := by
  induction fuel generalizing st with
  | zero => omega
  | succ fuel ih =>
    rw [scan_classes, c_char_at_c_string text _ hp]
    cases hr : (text.takeWhile (· != NUL)).drop (st.current_c + st.offset) with
    | nil => exact ⟨st, by simp, rfl⟩
    | cons c r =>
      obtain ⟨hdrop, hlt⟩ := drop_eq_cons_succ _ _ c r hr
      have hc : c ≠ NUL := c_string_no_NUL text c (by
        have : c ∈ (text.takeWhile (· != NUL)).drop (st.current_c + st.offset) := by
          rw [hr]; exact List.mem_cons_self c r
        exact List.mem_of_mem_drop this)
      rw [hr] at hfuel hdel
      have hfuel2 : r.length < fuel := by simp at hfuel; omega
      simp only [List.headD_cons, Option.some_bind, Option.bind_eq_bind, if_neg hc]
      by_cases hq : c = Char.ofNat 34 ∨ c = '['
      · rw [if_pos hq]
        have hnd : ¬ (c = ',' ∨ c = ']') := by
          rcases hq with h | h <;> subst h <;> decide
        have hpos : st.current_c + 1 + st.offset = st.current_c + st.offset + 1 := by omega
        obtain ⟨st', h1, h2⟩ := ih { st with current_c := st.current_c + 1 }
          (by simp only [hpos]; omega) (by simp only [hpos, hdrop]; exact hfuel2) hbuf harr
          (by simp only [hpos, hdrop]; simpa [List.countP_cons, hnd] using hdel)
        exact ⟨st', h1, h2⟩
      · rw [if_neg hq]
        by_cases hd : c = ',' ∨ c = ']'
        · rw [if_pos hd]
          have hcount : st.classes_processed = 0 ∧
              r.countP (fun c => decide (c = ',' ∨ c = ']')) = 0 := by
            simp only [List.countP_cons, hd, decide_True, if_true] at hdel
            omega
          have hw1 : array_write st.current_class (st.offset + 1) NUL =
              some (st.current_class.set (st.offset + 1) NUL) :=
            array_write_of_lt _ _ _ (by omega)
          have hw2 : ∀ x, array_write st.ptr_array (st.classes_processed * sizeof_ptr) x =
              some (st.ptr_array.set (st.classes_processed * sizeof_ptr) x) := fun x =>
            array_write_of_lt _ _ _ (by rw [hcount.1]; simpa using harr)
          simp only [hw1, hw2, Option.some_bind]
          have hpos : st.current_c + (st.offset + 1) + 0 = st.current_c + st.offset + 1 := by
            omega
          obtain ⟨st', h1, h2⟩ := ih
            { current_c := st.current_c + (st.offset + 1), offset := 0,
              classes_processed := st.classes_processed + 1,
              current_class := st.current_class.set (st.offset + 1) NUL,
              ptr_array := st.ptr_array.set (st.classes_processed * sizeof_ptr)
                (some (lwc_intern_string ⟨st.current_class.set (st.offset + 1) NUL⟩
                  (strlen ⟨st.current_class.set (st.offset + 1) NUL⟩))) }
            (by simp only [hpos]; omega) (by simp only [hpos, hdrop]; exact hfuel2)
            (by simpa using hbuf) (by simpa using harr)
            (by simp only [hpos, hdrop, hcount.1, hcount.2]; omega)
          exact ⟨st', h1, by simpa using h2⟩
        · rw [if_neg hd]
          have hw1 : array_write st.current_class st.offset c =
              some (st.current_class.set st.offset c) :=
            array_write_of_lt _ _ _ (by omega)
          simp only [hw1, Option.some_bind]
          have hpos : st.current_c + (st.offset + 1) = st.current_c + st.offset + 1 := by omega
          obtain ⟨st', h1, h2⟩ := ih
            { st with offset := st.offset + 1,
                      current_class := st.current_class.set st.offset c }
            (by simp only [hpos]; omega) (by simp only [hpos, hdrop]; exact hfuel2)
            (by simpa using hbuf) harr
            (by simp only [hpos, hdrop]; simpa [List.countP_cons, hd] using hdel)
          exact ⟨st', h1, h2⟩

/-! ## More lemmas on `compute_font_size` -/

theorem resolve_length_dimension (ua : Int) (ps : css_hint_length) (size : css_hint)
    (hs : size.status = CSS_FONT_SIZE_DIMENSION) (hu : absolute_unit size.data.length.unit) :
    resolve_length ua ps size = some size.data.length := by
  obtain ⟨hem, hex, hpct⟩ := hu
  simp [resolve_length, hs, hem, hex, hpct, CSS_FONT_SIZE_DIMENSION, CSS_FONT_SIZE_LARGER,
    CSS_FONT_SIZE_SMALLER]

theorem le_FMUL_larger (v : Int) (h0 : 0 ≤ v) (hmax : v ≤ INT_MAX) :
    v ≤ FMUL v (FLTTOFIX 12 10) := by
  unfold FMUL css_saturate
  rw [show FLTTOFIX 12 10 = 1228 by decide, Int.shiftRight_eq_div_pow,
    show ((2 ^ CSS_RADIX_POINT : Nat) : Int) = 1024 by decide]
  simp only [INT_MIN, INT_MAX] at hmax ⊢
  split_ifs <;> omega

theorem FDIV_smaller_le (v : Int) (h0 : 0 ≤ v) (hmax : v ≤ INT_MAX) :
    FDIV v (FLTTOFIX 12 10) ≤ v := by
  have hq : v * 1024 / 1228 ≤ v := by omega
  have hq0 : 0 ≤ v * 1024 / 1228 := by omega
  unfold FDIV
  rw [show FLTTOFIX 12 10 = 1228 by decide, show (2 : Int) ^ CSS_RADIX_POINT = 1024 by decide,
    Int.tdiv_eq_ediv (by omega) (by decide),
    css_saturate_of_mem _ (le_trans (by decide) hq0) (le_trans hq hmax)]
  exact hq

/-! ## Safety, idempotence and monotonicity of `compute_font_size`; the frame of a set -/

/-- C21: when the parent is absent or a dimension in a unit other than em, ex
and percent and the status of the request is not "inherit", every assertion
of `compute_font_size` holds, the keyword branch reads `factors` at an index
from 0 to 6 of its seven entries, and the function returns; the parent
synthesized when none is supplied is in points and so meets the parent
precondition itself. -/
theorem compute_font_size_assertions_hold (ua : Int) (parent : Option css_hint)
    (size : css_hint) (hs : size.status ≠ CSS_FONT_SIZE_INHERIT)
    (hp : admissible_parent parent) :
    (∀ p, parent = some p →
      c_assert (p.status == CSS_FONT_SIZE_DIMENSION) = some () ∧
      c_assert (p.data.length.unit != CSS_UNIT_EM) = some () ∧
      c_assert (p.data.length.unit != CSS_UNIT_EX) = some () ∧
      c_assert (p.data.length.unit != CSS_UNIT_PCT) = some ()) ∧
    c_assert (size.status != CSS_FONT_SIZE_INHERIT) = some () ∧
    factors.length = 7 ∧
    (size.status < CSS_FONT_SIZE_LARGER →
      0 ≤ (size.status : Int) - 1 ∧ (size.status : Int) - 1 ≤ 6 ∧
      (array_read factors ((size.status : Int) - 1)).isSome = true) ∧
    (∃ parent_size, grab_parent_size ua none = some parent_size ∧
      parent_size.unit = CSS_UNIT_PT ∧ absolute_unit parent_size.unit) ∧
    (compute_font_size ua parent size).isSome = true := by
  refine ⟨?_, ?_, by decide, ?_, ?_, ?_⟩
  · intro p hpar
    subst hpar
    obtain ⟨h1, h2, h3, h4⟩ := hp
    simp [c_assert, h1, h2, h3, h4]
  · simp [c_assert, hs]
  · intro hlt
    obtain ⟨k, hk⟩ : ∃ k, size.status = k + 1 := Nat.exists_eq_succ_of_ne_zero hs
    have hk7 : k < 7 := by
      simp only [CSS_FONT_SIZE_LARGER, hk] at hlt; omega
    have hidx : ((size.status : Int) - 1) = (k : Int) := by rw [hk]; push_cast; ring
    have hlen : k < factors.length := by rw [factors_eq]; simpa using hk7
    have hnn : ¬ ((k : Int) < 0) := by omega
    refine ⟨by omega, by omega, ?_⟩
    simp [array_read, hidx, hnn, List.getElem?_eq_getElem hlen]
  · refine ⟨_, grab_parent_size_none ua, rfl, ?_⟩
    show absolute_unit CSS_UNIT_PT
    decide
  · obtain ⟨ps, hps, habs⟩ := grab_parent_size_admissible ua parent hp
    obtain ⟨len, hlen, -⟩ := resolve_length_absolute ua ps size hs habs
    rw [compute_font_size_eq ua parent size ps len hs hps hlen]
    rfl

/-- Instance of C21 at the keyword small against a 16pt parent. -/
theorem compute_font_size_assertions_hold_witness :
    ((keyword_hint CSS_FONT_SIZE_SMALL).status ≠ CSS_FONT_SIZE_INHERIT ∧
      admissible_parent (some (dimension_hint 16384 CSS_UNIT_PT))) ∧
    (array_read factors (((keyword_hint CSS_FONT_SIZE_SMALL).status : Int) - 1)).isSome = true ∧
    (compute_font_size 16 (some (dimension_hint 16384 CSS_UNIT_PT))
      (keyword_hint CSS_FONT_SIZE_SMALL)).isSome = true :=
  ⟨⟨by decide, by decide⟩,
    ((compute_font_size_assertions_hold 16 (some (dimension_hint 16384 CSS_UNIT_PT))
      (keyword_hint CSS_FONT_SIZE_SMALL) (by decide) (by decide)).2.2.2.1 (by decide)).2.2,
    (compute_font_size_assertions_hold 16 (some (dimension_hint 16384 CSS_UNIT_PT))
      (keyword_hint CSS_FONT_SIZE_SMALL) (by decide) (by decide)).2.2.2.2.2⟩

/-- C22: for every admissible parent and every request that is not
"inherit", `compute_font_size` returns a result, and resolving that result
again against the same parent returns it unchanged. -/
theorem compute_font_size_idempotent (ua : Int) (parent : Option css_hint) (size : css_hint)
    (hs : size.status ≠ CSS_FONT_SIZE_INHERIT) (hp : admissible_parent parent) :
    ∃ out, compute_font_size ua parent size = some (CSS_OK, out) ∧
      compute_font_size ua parent out = some (CSS_OK, out) := by
  obtain ⟨ps, hps, habs⟩ := grab_parent_size_admissible ua parent hp
  obtain ⟨len, hlen, hunit⟩ := resolve_length_absolute ua ps size hs habs
  refine ⟨as_dimension size len, compute_font_size_eq ua parent size ps len hs hps hlen, ?_⟩
  have hne : (as_dimension size len).status ≠ CSS_FONT_SIZE_INHERIT := by
    simp [as_dimension, CSS_FONT_SIZE_DIMENSION, CSS_FONT_SIZE_INHERIT]
  have hagain : resolve_length ua ps (as_dimension size len) = some len :=
    resolve_length_dimension ua ps (as_dimension size len) rfl hunit
  rw [compute_font_size_eq ua parent (as_dimension size len) ps len hne hps hagain]
  rfl

/-- Instance of C22 at the request 2em against a 12pt parent. -/
theorem compute_font_size_idempotent_witness :
    ((dimension_hint (INTTOFIX 2) CSS_UNIT_EM).status ≠ CSS_FONT_SIZE_INHERIT ∧
      admissible_parent (some (dimension_hint 12288 CSS_UNIT_PT))) ∧
    ∃ out, compute_font_size 16 (some (dimension_hint 12288 CSS_UNIT_PT))
        (dimension_hint (INTTOFIX 2) CSS_UNIT_EM) = some (CSS_OK, out) ∧
      compute_font_size 16 (some (dimension_hint 12288 CSS_UNIT_PT)) out =
        some (CSS_OK, out) :=
  ⟨⟨by decide, by decide⟩,
    compute_font_size_idempotent 16 (some (dimension_hint 12288 CSS_UNIT_PT))
      (dimension_hint (INTTOFIX 2) CSS_UNIT_EM) (by decide) (by decide)⟩

/-- C23: for every absolute parent whose value `v` is non-negative (and a
`css_fixed`, at most `INT_MAX`), the value `compute_font_size` produces for
"larger" is at least `v` and the value it produces for "smaller" is at most
`v`. -/
theorem compute_font_size_larger_smaller_bracket (ua : Int) (p larger smaller : css_hint)
    (hp : absolute_dimension p) (hl : larger.status = CSS_FONT_SIZE_LARGER)
    (hs : smaller.status = CSS_FONT_SIZE_SMALLER)
    (h0 : 0 ≤ p.data.length.value) (hmax : p.data.length.value ≤ INT_MAX) :
    ∃ up down, compute_font_size ua (some p) larger = some (CSS_OK, up) ∧
      compute_font_size ua (some p) smaller = some (CSS_OK, down) ∧
      p.data.length.value ≤ up.data.length.value ∧
      down.data.length.value ≤ p.data.length.value := by
  have hnl : larger.status ≠ CSS_FONT_SIZE_INHERIT := by
    simp [hl, CSS_FONT_SIZE_LARGER, CSS_FONT_SIZE_INHERIT]
  have hns : smaller.status ≠ CSS_FONT_SIZE_INHERIT := by
    simp [hs, CSS_FONT_SIZE_SMALLER, CSS_FONT_SIZE_INHERIT]
  have hlen_l : resolve_length ua p.data.length larger =
      some { value := FMUL p.data.length.value (FLTTOFIX 12 10),
             unit := p.data.length.unit } := by
    simp [resolve_length, hl]
  have hlen_s : resolve_length ua p.data.length smaller =
      some { value := FDIV p.data.length.value (FLTTOFIX 12 10),
             unit := p.data.length.unit } := by
    simp [resolve_length, hs, CSS_FONT_SIZE_SMALLER, CSS_FONT_SIZE_LARGER]
  exact ⟨_, _,
    compute_font_size_eq ua (some p) larger _ _ hnl (grab_parent_size_some ua p hp) hlen_l,
    compute_font_size_eq ua (some p) smaller _ _ hns (grab_parent_size_some ua p hp) hlen_s,
    le_FMUL_larger _ h0 hmax, FDIV_smaller_le _ h0 hmax⟩

/-- Instance of C23 at a 10pt parent. -/
theorem compute_font_size_larger_smaller_bracket_witness :
    (absolute_dimension (dimension_hint 10240 CSS_UNIT_PT) ∧
      (keyword_hint CSS_FONT_SIZE_LARGER).status = CSS_FONT_SIZE_LARGER ∧
      (keyword_hint CSS_FONT_SIZE_SMALLER).status = CSS_FONT_SIZE_SMALLER ∧
      0 ≤ (dimension_hint 10240 CSS_UNIT_PT).data.length.value ∧
      (dimension_hint 10240 CSS_UNIT_PT).data.length.value ≤ INT_MAX) ∧
    ∃ up down, compute_font_size 16 (some (dimension_hint 10240 CSS_UNIT_PT))
        (keyword_hint CSS_FONT_SIZE_LARGER) = some (CSS_OK, up) ∧
      compute_font_size 16 (some (dimension_hint 10240 CSS_UNIT_PT))
        (keyword_hint CSS_FONT_SIZE_SMALLER) = some (CSS_OK, down) ∧
      (dimension_hint 10240 CSS_UNIT_PT).data.length.value ≤ up.data.length.value ∧
      down.data.length.value ≤ (dimension_hint 10240 CSS_UNIT_PT).data.length.value :=
  ⟨⟨by decide, by decide, by decide, by decide, by decide⟩,
    compute_font_size_larger_smaller_bracket 16 (dimension_hint 10240 CSS_UNIT_PT)
      (keyword_hint CSS_FONT_SIZE_LARGER) (keyword_hint CSS_FONT_SIZE_SMALLER)
      (by decide) (by decide) (by decide) (by decide) (by decide)⟩

/-- C24 is not met by the code: with `match` reading as true, a set for the
handle `A` lands on the first node of the chain, which here is the entry of
the other handle `B`, and replaces its data, so that
`get_libcss_node_data(B)` returns another pointer than before; this on a
store holding an entry for `B` and on the store a first set for `B` has
left. -/
theorem set_overwrites_other_entry :
    ("A" : lwc_string) ≠ "B" ∧
    get_libcss_node_data match_set [⟨"B", some 1⟩] "B" = some (CSS_OK, some 1) ∧
    set_libcss_node_data match_set [⟨"B", some 1⟩] "A" (some 2) =
      (CSS_OK, [⟨"B", some 2⟩]) ∧
    get_libcss_node_data match_set
        (set_libcss_node_data match_set [⟨"B", some 1⟩] "A" (some 2)).2 "B" =
      some (CSS_OK, some 2) ∧
    get_libcss_node_data match_set
        (set_libcss_node_data match_clear [] "B" (some 1)).2 "B" = some (CSS_OK, none) ∧
    get_libcss_node_data match_set
        (set_libcss_node_data match_set
          (set_libcss_node_data match_clear [] "B" (some 1)).2 "A" (some 2)).2 "B" =
      some (CSS_OK, some 2) :=
  ⟨by decide, by decide, by decide, by decide, by decide, by decide⟩

/-! ## More lemmas on the loops of `node_classes` -/

theorem scan_classes_succ (sizeof_ptr : Nat) (text : List Char) (fuel : Nat) (st : class_scan) :
    scan_classes sizeof_ptr text (fuel + 1) st =
      match scan_step sizeof_ptr text st with
      | scan_outcome.stop => some st
      | scan_outcome.next st' => scan_classes sizeof_ptr text fuel st'
      | scan_outcome.fault => none := by
  rw [scan_classes, scan_step]
  cases c_char_at text (st.current_c + st.offset) with
  | none => rfl
  | some c =>
    simp only [Option.some_bind, Option.bind_eq_bind]
    split_ifs
    · rfl
    · rfl
    · cases array_write st.current_class (st.offset + 1) NUL with
      | none => rfl
      | some current_class =>
        simp only [Option.some_bind]
        cases array_write st.ptr_array (st.classes_processed * sizeof_ptr)
          (some (lwc_intern_string ⟨current_class⟩ (strlen ⟨current_class⟩))) with
        | none => rfl
        | some ptr_array => rfl
    · cases array_write st.current_class st.offset c with
      | none => rfl
      | some current_class => rfl

theorem scan_classes_eq_passes (sizeof_ptr : Nat) (text : List Char) (fuel : Nat)
    (st : class_scan) :
    scan_classes sizeof_ptr text fuel st =
      match scan_passes sizeof_ptr text fuel st with
      | loop_state.finished st' => some st'
      | loop_state.faulted => none
      | loop_state.running _ => none := by
  induction fuel generalizing st with
  | zero => rfl
  | succ fuel ih =>
    rw [scan_classes_succ, scan_passes]
    cases scan_step sizeof_ptr text st with
    | stop => rfl
    | next st' => exact ih st'
    | fault => rfl

theorem scan_step_stop_iff (sizeof_ptr : Nat) (text : List Char) (st : class_scan)
    (hp : st.current_c + st.offset ≤ (text.takeWhile (· != NUL)).length) :
    scan_step sizeof_ptr text st = scan_outcome.stop ↔
      st.current_c + st.offset = (text.takeWhile (· != NUL)).length := by
  rw [scan_step, c_char_at_c_string text _ hp]
  cases hr : (text.takeWhile (· != NUL)).drop (st.current_c + st.offset) with
  | nil =>
    have hlen := congrArg List.length hr
    simp only [List.length_drop, List.length_nil] at hlen
    simp only [List.headD_nil, if_true, true_iff]
    omega
  | cons c r =>
    obtain ⟨-, hlt⟩ := drop_eq_cons_succ _ _ c r hr
    have hc : c ≠ NUL := c_string_no_NUL text c (by
      have : c ∈ (text.takeWhile (· != NUL)).drop (st.current_c + st.offset) := by
        rw [hr]; exact List.mem_cons_self c r
      exact List.mem_of_mem_drop this)
    simp only [List.headD_cons, if_neg hc]
    constructor
    · intro h
      split_ifs at h
      · cases harr : array_write st.current_class (st.offset + 1) NUL with
        | none => rw [harr] at h; simp at h
        | some cc =>
          rw [harr] at h
          simp only at h
          split at h <;> simp at h
      · split at h <;> simp at h
    · intro h
      omega

theorem scan_step_next (sizeof_ptr : Nat) (text : List Char) (st st' : class_scan)
    (hp : st.current_c + st.offset ≤ (text.takeWhile (· != NUL)).length)
    (h : scan_step sizeof_ptr text st = scan_outcome.next st') :
    st'.current_c + st'.offset = st.current_c + st.offset + 1 ∧
      st'.current_c + st'.offset ≤ (text.takeWhile (· != NUL)).length := by
  rw [scan_step, c_char_at_c_string text _ hp] at h
  cases hr : (text.takeWhile (· != NUL)).drop (st.current_c + st.offset) with
  | nil => rw [hr] at h; simp at h
  | cons c r =>
    obtain ⟨-, hlt⟩ := drop_eq_cons_succ _ _ c r hr
    rw [hr] at h
    simp only [List.headD_cons] at h
    have key : st'.current_c + st'.offset = st.current_c + st.offset + 1 := by
      split_ifs at h
      · simp only [scan_outcome.next.injEq] at h
        subst h
        simp only
        omega
      · cases harr : array_write st.current_class (st.offset + 1) NUL with
        | none => rw [harr] at h; simp at h
        | some cc =>
          rw [harr] at h
          simp only at h
          split at h
          · simp at h
          · simp only [scan_outcome.next.injEq] at h
            subst h
            simp only
            omega
      · split at h
        · simp at h
        · simp only [scan_outcome.next.injEq] at h
          subst h
          simp only
          omega
    exact ⟨key, by omega⟩

theorem scan_passes_not_running (sizeof_ptr : Nat) (text : List Char) (passes : Nat)
    (st : class_scan)
    (hp : st.current_c + st.offset ≤ (text.takeWhile (· != NUL)).length)
    (hpasses : (text.takeWhile (· != NUL)).length - (st.current_c + st.offset) < passes) :
    ∀ st', scan_passes sizeof_ptr text passes st ≠ loop_state.running st' := by
  induction passes generalizing st with
  | zero => omega
  | succ passes ih =>
    intro st'
    rw [scan_passes]
    cases hstep : scan_step sizeof_ptr text st with
    | stop => simp
    | fault => simp
    | next st2 =>
      obtain ⟨h1, h2⟩ := scan_step_next sizeof_ptr text st st2 hp hstep
      exact ih st2 h2 (by omega) st'

theorem count_classes_succ (text : List Char) (fuel i n : Nat)
    (hi : i < (text.takeWhile (· != NUL)).length) :
    count_classes text (fuel + 1) i n = count_classes text fuel (i + 1) n := by
  rw [count_classes, c_char_at_c_string text i (Nat.le_of_lt hi)]
  cases hr : (text.takeWhile (· != NUL)).drop i with
  | nil =>
    have hlen := congrArg List.length hr
    simp only [List.length_drop, List.length_nil] at hlen
    omega
  | cons c r =>
    have hc : c ≠ NUL := c_string_no_NUL text c (by
      have : c ∈ (text.takeWhile (· != NUL)).drop i := by rw [hr]; exact List.mem_cons_self c r
      exact List.mem_of_mem_drop this)
    simp only [List.headD_cons, Option.some_bind, Option.bind_eq_bind, if_neg hc,
      c_char_at_c_string text (i + 1) hi, char_eq_literal, Bool.false_eq_true, if_false]

theorem count_classes_stop (text : List Char) (fuel n : Nat) :
    count_classes text (fuel + 1) (text.takeWhile (· != NUL)).length n = some n := by
  rw [count_classes, c_char_at_c_string text _ (Nat.le_refl _)]
  simp

/-! ## Memory safety and termination of `node_classes` -/

/-- C25 is not met by the code: for the text `["a","b"]` the first loop
leaves `n = 1`, its test of the comma never being true, and with a pointer
size of 8 the second name is stored at cell 8, outside the array allocated
and outside one of two cells as well (on an array of nine cells the scan
fills cells 0 and 8 and leaves cell 1 unfilled); for the text `["a` the
function reports `n_classes = 1` and has filled no cell. -/
theorem node_classes_writes_outside_array :
    count_classes "[\"a\",\"b\"]".data 10 0 1 = some 1 ∧
    scan_classes 8 "[\"a\",\"b\"]".data 10
        { current_c := 0, offset := 0, classes_processed := 0,
          current_class := List.replicate 10 NUL,
          ptr_array := List.replicate 2 none } = none ∧
    (scan_classes 8 "[\"a\",\"b\"]".data 10
        { current_c := 0, offset := 0, classes_processed := 0,
          current_class := List.replicate 10 NUL,
          ptr_array := List.replicate 9 none }).map class_scan.ptr_array =
      some [some "a", none, none, none, none, none, none, none, some "b"] ∧
    node_classes 8 zeroed_stack (constant_host "[\"a\",\"b\"]") "n" = none ∧
    node_classes 8 zeroed_stack (constant_host "[\"a") "n" = some (CSS_OK, some [none], 1) :=
  ⟨by decide, by decide, by decide, by decide, by decide⟩

/-- C26: on every host string both loops of `node_classes` end. The counting
loop moves `current_c` on by one in each pass until it stands on the
terminator, where it stops, and it ends within the length of the string. The
tokenizing loop stops exactly when `current_c + offset` stands on the
terminator; every pass that does not fault moves `current_c + offset` on by
exactly one and not past the terminator; and after at most one pass more than
the string has characters the loop is no longer running. -/
theorem node_classes_loops_terminate (sizeof_ptr : Nat) (js_results : String)
    (fuel current_c n : Nat) (st : class_scan)
    (hc : current_c ≤ strlen js_results)
    (hp : st.current_c + st.offset ≤ strlen js_results) :
    (current_c < strlen js_results →
      count_classes js_results.data (fuel + 1) current_c n =
        count_classes js_results.data fuel (current_c + 1) n) ∧
    (current_c = strlen js_results →
      count_classes js_results.data (fuel + 1) current_c n = some n) ∧
    (strlen js_results - current_c < fuel →
      (count_classes js_results.data fuel current_c n).isSome = true) ∧
    (count_classes js_results.data (js_results.data.length + 1) 0 1).isSome = true ∧
    (scan_step sizeof_ptr js_results.data st = scan_outcome.stop ↔
      st.current_c + st.offset = strlen js_results) ∧
    (∀ st', scan_step sizeof_ptr js_results.data st = scan_outcome.next st' →
      st'.current_c + st'.offset = st.current_c + st.offset + 1 ∧
      st'.current_c + st'.offset ≤ strlen js_results) ∧
    (scan_classes sizeof_ptr js_results.data fuel st =
      match scan_passes sizeof_ptr js_results.data fuel st with
      | loop_state.finished st' => some st'
      | loop_state.faulted => none
      | loop_state.running _ => none) ∧
    (strlen js_results - (st.current_c + st.offset) < fuel →
      ∀ st', scan_passes sizeof_ptr js_results.data fuel st ≠ loop_state.running st') ∧
    (∀ current_class ptr_array st',
      scan_passes sizeof_ptr js_results.data (js_results.data.length + 1)
        { current_c := 0, offset := 0, classes_processed := 0,
          current_class := current_class, ptr_array := ptr_array } ≠
        loop_state.running st') := by
  have hlen : strlen js_results ≤ js_results.data.length :=
    (List.takeWhile_sublist _).length_le
  refine ⟨?_, ?_, ?_, ?_, ?_, ?_, ?_, ?_, ?_⟩
  · intro h
    exact count_classes_succ js_results.data fuel current_c n h
  · intro h
    rw [h]
    exact count_classes_stop js_results.data fuel n
  · intro h
    rw [count_classes_eq js_results.data fuel current_c n hc
      (by simp only [List.length_drop]; exact h)]
    rfl
  · rw [count_classes_eq js_results.data _ 0 1 (Nat.zero_le _)
      (by simp only [List.drop_zero]; exact Nat.lt_succ_of_le hlen)]
    rfl
  · exact scan_step_stop_iff sizeof_ptr js_results.data st hp
  · intro st' h
    exact scan_step_next sizeof_ptr js_results.data st st' hp h
  · exact scan_classes_eq_passes sizeof_ptr js_results.data fuel st
  · intro h
    exact scan_passes_not_running sizeof_ptr js_results.data fuel st hp h
  · intro current_class ptr_array
    exact scan_passes_not_running sizeof_ptr js_results.data _ _ (Nat.zero_le _)
      (by
        show (List.takeWhile (· != NUL) js_results.data).length - (0 + 0) <
          js_results.data.length + 1
        have := hlen
        unfold strlen at this
        omega)

/-- Instance of C26 at the text `["a","b"]`, from the start of both loops. -/
theorem node_classes_loops_terminate_witness :
    (0 ≤ strlen "[\"a\",\"b\"]" ∧ 0 + 0 ≤ strlen "[\"a\",\"b\"]") ∧
    (count_classes "[\"a\",\"b\"]".data ("[\"a\",\"b\"]".data.length + 1) 0 1).isSome = true ∧
    ∀ st', scan_passes 8 "[\"a\",\"b\"]".data ("[\"a\",\"b\"]".data.length + 1)
      { current_c := 0, offset := 0, classes_processed := 0,
        current_class := List.replicate 10 NUL, ptr_array := [none, none] } ≠
        loop_state.running st' :=
  ⟨⟨by decide, by decide⟩,
    (node_classes_loops_terminate 8 "[\"a\",\"b\"]" 10 0 1
      { current_c := 0, offset := 0, classes_processed := 0,
        current_class := List.replicate 10 NUL, ptr_array := [none, none] }
      (by decide) (by decide)).2.2.2.1,
    (node_classes_loops_terminate 8 "[\"a\",\"b\"]" 10 0 1
      { current_c := 0, offset := 0, classes_processed := 0,
        current_class := List.replicate 10 NUL, ptr_array := [none, none] }
      (by decide) (by decide)).2.2.2.2.2.2.2.2 _ _⟩

end LibcssHandler
